import Mathlib

/-!
The coredhcp plugin `plugins/server`: a shallow embedding and its verified
properties.

The development embeds `src/plugins/server/plugin.go` (package `clientport`):
the package-level variables `serverIP`, `netmask`, `ClientSubnet`, the two
packet handlers `Handler6` / `Handler4`, the setup functions and
`checkValidNetmask`.

The plugin calls into the Go standard library (`net`, `encoding/binary`) and
into `github.com/insomniacslk/dhcp/dhcpv4`.  The parts of those libraries that
the plugin executes are embedded too, function by function, in the namespaces
`net`, `binary` and `dhcpv4`.

Conventions of the embedding:

* a Go `byte` is a `Fin 256`; a `uint32` is a `Nat` reduced modulo `2^32`;
* a Go byte slice (`net.IP`, `net.IPMask`, `[]byte`) is a `List Byte`, and the
  `nil` slice is the empty list (none of the embedded functions ever builds a
  non-nil slice of length zero);
* a run-time panic (index out of range) is an explicit outcome: `none` for the
  pure functions, `SetupOutcome.panicked` for `setupServer`;
* a Go `error` is an `Option String`: `none` is the nil error and `some msg`
  is an error whose `Error()` text is `msg`;
* package-level variables are a record `Globals` that is passed in and out.
* where a property is about memory shared between calls, `Handler4` is embedded
  a second time, as the program `Handler4S` on a memory `World` that holds the
  package variables, the packets behind pointers and the log.
-/

namespace CoreDHCP

/-- A Go `byte`. -/
abbrev Byte := Fin 256

/-- The Go conversion `byte(n)`: the low eight bits of `n`. -/
def byte (n : Nat) : Byte := ⟨n % 256, Nat.mod_lt n (by decide)⟩

/-! ## Package `net` of the Go standard library -/

namespace net

/-- Go type `net.IP`, a byte slice. -/
abbrev IP := List Byte

/-- Go type `net.IPMask`, a byte slice. -/
abbrev IPMask := List Byte

/-- Length in bytes of an IPv4 address. -/
def IPv4len : Nat := 4

/-- Length in bytes of an IPv6 address. -/
def IPv6len : Nat := 16

/-- The twelve leading bytes of an IPv4-mapped IPv6 address. -/
def v4InV6Prefix : List Byte := [0, 0, 0, 0, 0, 0, 0, 0, 0, 0, 0xff, 0xff]

/-- Go `net.IPv4(a, b, c, d)`: the 16-byte form of the IPv4 address. -/
def IPv4 (a b c d : Byte) : IP := v4InV6Prefix ++ [a, b, c, d]

/-- Go `net.IPv4Mask(a, b, c, d)`: the 4-byte mask. -/
def IPv4Mask (a b c d : Byte) : IPMask := [a, b, c, d]

/-- The variable `net.IPv4zero`. -/
def IPv4zero : IP := IPv4 0 0 0 0

/-- The variable `net.IPv6unspecified`. -/
def IPv6unspecified : IP := List.replicate 16 0

/-- Go `isZeros`: every byte of the slice is zero. -/
def isZeros (p : List Byte) : Bool := p.all (fun b => b == 0)

/-- Go `IP.To4`: the 4-byte form of an IPv4 address, or nil when the value is
not an IPv4 address. -/
def To4 (ip : IP) : IP :=
  if ip.length = IPv4len then ip
  else if ip.length = IPv6len ∧ isZeros (ip.take 10) = true
      ∧ ip[10]? = some 0xff ∧ ip[11]? = some 0xff then ip.drop 12
  else []

/-- Go `IP.To16`: the 16-byte form of the address, or nil when the length is
neither 4 nor 16. -/
def To16 (ip : IP) : IP :=
  if ip.length = IPv4len then
    IPv4 (ip.getD 0 0) (ip.getD 1 0) (ip.getD 2 0) (ip.getD 3 0)
  else if ip.length = IPv6len then ip
  else []

/-- Go `IP.Equal`: equality of addresses, an IPv4 address and its 16-byte form
being equal. -/
def Equal (ip x : IP) : Bool :=
  if ip.length = x.length then ip == x
  else if ip.length = IPv4len ∧ x.length = IPv6len then
    x.take 12 == v4InV6Prefix && ip == x.drop 12
  else if ip.length = IPv6len ∧ x.length = IPv4len then
    ip.take 12 == v4InV6Prefix && ip.drop 12 == x
  else false

/-- Go `IP.IsUnspecified`: the address is `0.0.0.0` or `::`. -/
def IsUnspecified (ip : IP) : Bool :=
  Equal ip IPv4zero || Equal ip IPv6unspecified

/-! ### Parsing (`net/parse.go`, `net/ip.go`)

Go indexes a string by bytes.  The parsers below run over the characters of
the string: they only ever accept the ASCII characters `0-9`, `a-f`, `A-F`,
`.`, `:` and `/`, and a character outside ASCII is refused exactly as each of
its UTF-8 bytes would be.  The functions follow the Go releases contemporary
with the plugin (Go 1.11 to 1.16). -/

/-- Go constant `big`: bigger than any number the parsers need. -/
def big : Nat := 0xFFFFFF

/-- The loop of Go `dtoi` followed by its two final returns; `n` is the number
read so far and `i` the count of characters consumed. -/
def dtoiLoop : List Char → Nat → Nat → Nat × Nat × Bool
  | [], n, i => if i = 0 then (0, 0, false) else (n, i, true)
  | c :: cs, n, i =>
    if '0' ≤ c ∧ c ≤ '9' then
      if n * 10 + (c.toNat - '0'.toNat) ≥ big then (big, i, false)
      else dtoiLoop cs (n * 10 + (c.toNat - '0'.toNat)) (i + 1)
    else if i = 0 then (0, 0, false) else (n, i, true)

/-- Go `dtoi`, decimal to integer: returns the number, the count of characters
consumed and whether a number was read. -/
def dtoi (s : List Char) : Nat × Nat × Bool := dtoiLoop s 0 0

/-- The loop of Go `xtoi` followed by its two final returns. -/
def xtoiLoop : List Char → Nat → Nat → Nat × Nat × Bool
  | [], n, i => if i = 0 then (0, i, false) else (n, i, true)
  | c :: cs, n, i =>
    if '0' ≤ c ∧ c ≤ '9' then
      if n * 16 + (c.toNat - '0'.toNat) ≥ big then (0, i, false)
      else xtoiLoop cs (n * 16 + (c.toNat - '0'.toNat)) (i + 1)
    else if 'a' ≤ c ∧ c ≤ 'f' then
      if n * 16 + (c.toNat - 'a'.toNat + 10) ≥ big then (0, i, false)
      else xtoiLoop cs (n * 16 + (c.toNat - 'a'.toNat + 10)) (i + 1)
    else if 'A' ≤ c ∧ c ≤ 'F' then
      if n * 16 + (c.toNat - 'A'.toNat + 10) ≥ big then (0, i, false)
      else xtoiLoop cs (n * 16 + (c.toNat - 'A'.toNat + 10)) (i + 1)
    else if i = 0 then (0, i, false) else (n, i, true)

/-- Go `xtoi`, hexadecimal to integer: returns the number, the count of
characters consumed and whether a number was read. -/
def xtoi (s : List Char) : Nat × Nat × Bool := xtoiLoop s 0 0

/-- The loop `for i := 0; i < IPv4len; i++` of Go `parseIPv4`, with `k` rounds
left to run; `none` is the early `return nil`. -/
def parseIPv4Loop : Nat → Nat → List Char → List Byte → Option (List Char × List Byte)
  | 0, _, s, p => some (s, p)
  | k + 1, i, s, p =>
    if s.length = 0 then none
    else if i > 0 ∧ s.head? ≠ some '.' then none
    else
      let s1 := if i > 0 then s.drop 1 else s
      match dtoi s1 with
      | (n, c, ok) =>
        if ok = false ∨ n > 0xFF then none
        else parseIPv4Loop k (i + 1) (s1.drop c) (p.set i (byte n))

/-- Go `parseIPv4`: parses `d.d.d.d` into the 16-byte form, nil on failure. -/
def parseIPv4 (s : List Char) : IP :=
  match parseIPv4Loop 4 0 s [0, 0, 0, 0] with
  | none => []
  | some (rest, p) =>
    if rest.length ≠ 0 then []
    else IPv4 (p.getD 0 0) (p.getD 1 0) (p.getD 2 0) (p.getD 3 0)

/-- The loop `for i < IPv6len` of Go `parseIPv6`.  The state is the address
being filled, the position of the ellipsis (`none` for the Go value `-1`), the
index `i` and the rest of the string; the result is the state at the exit of
the loop, or `none` for an early `return nil`.  Every round that does not leave
the loop adds 2 to `i`, so 8 rounds of fuel cover every run. -/
def parseIPv6Loop : Nat → List Byte → Option Nat → Nat → List Char
    → Option (List Byte × Option Nat × Nat × List Char)
  | 0, ip, ellipsis, i, s => some (ip, ellipsis, i, s)
  | fuel + 1, ip, ellipsis, i, s =>
    if ¬ i < IPv6len then some (ip, ellipsis, i, s)
    else
      match xtoi s with
      | (n, c, ok) =>
        if ok = false ∨ n > 0xFFFF then none
        else if c < s.length ∧ s[c]? = some '.' then
          if ellipsis = none ∧ i ≠ IPv6len - IPv4len then none
          else if i + IPv4len > IPv6len then none
          else
            let ip4 := parseIPv4 s
            if ip4 = [] then none
            else
              some ((((ip.set i (ip4.getD 12 0)).set (i + 1) (ip4.getD 13 0)).set (i + 2)
                (ip4.getD 14 0)).set (i + 3) (ip4.getD 15 0), ellipsis, i + IPv4len, [])
        else
          let ip1 := (ip.set i (byte (n >>> 8))).set (i + 1) (byte n)
          let s1 := s.drop c
          if s1.length = 0 then some (ip1, ellipsis, i + 2, s1)
          else if s1.head? ≠ some ':' ∨ s1.length = 1 then none
          else
            let s2 := s1.drop 1
            if s2.head? = some ':' then
              if ellipsis ≠ none then none
              else if (s2.drop 1).length = 0 then some (ip1, some (i + 2), i + 2, s2.drop 1)
              else parseIPv6Loop fuel ip1 (some (i + 2)) (i + 2) (s2.drop 1)
            else parseIPv6Loop fuel ip1 ellipsis (i + 2) s2

/-- The two loops of Go `parseIPv6` that expand the ellipsis: the bytes
`ip[ellipsis..i)` move up by `n = IPv6len - i` and the gap is zeroed. -/
def expandEllipsis (ip : List Byte) (ellipsis i : Nat) : List Byte :=
  let n := IPv6len - i
  let moved := (List.range (i - ellipsis)).foldl
    (fun (q : List Byte) t => q.set (i - 1 - t + n) (q.getD (i - 1 - t) 0)) ip
  (List.range n).foldl (fun (q : List Byte) t => q.set (ellipsis + n - 1 - t) 0) moved

/-- Go `parseIPv6`: parses a literal IPv6 address, nil on failure. -/
def parseIPv6 (s : List Char) : IP :=
  let ip0 : List Byte := List.replicate 16 0
  let lead : Bool := decide (s.length ≥ 2 ∧ s[0]? = some ':' ∧ s[1]? = some ':')
  let ellipsis0 : Option Nat := if lead then some 0 else none
  let s0 := if lead then s.drop 2 else s
  if lead ∧ s0.length = 0 then ip0
  else
    match parseIPv6Loop 8 ip0 ellipsis0 0 s0 with
    | none => []
    | some (ip, ellipsis, i, rest) =>
      if rest.length ≠ 0 then []
      else if i < IPv6len then
        match ellipsis with
        | none => []
        | some e => expandEllipsis ip e i
      else if ellipsis ≠ none then []
      else ip

/-- The loop of Go `ParseIP`: the first `.` or `:` of the string selects the
parser; `s` is the whole string and the first argument what is left to scan. -/
def ParseIPScan : List Char → List Char → IP
  | [], _ => []
  | c :: cs, s =>
    if c = '.' then parseIPv4 s
    else if c = ':' then parseIPv6 s
    else ParseIPScan cs s

/-- Go `net.ParseIP`: the 16-byte address, or nil when the string is not a
valid textual IP address. -/
def ParseIP (s : String) : IP := ParseIPScan s.toList s.toList

/-- Go `net.CIDRMask`: the mask of `bits` bits whose first `ones` bits are 1. -/
def CIDRMask (ones bits : Nat) : IPMask :=
  if bits ≠ 8 * IPv4len ∧ bits ≠ 8 * IPv6len then []
  else if ones > bits then []
  else
    (List.range (bits / 8)).map (fun i =>
      if ones - 8 * i ≥ 8 then (0xff : Byte)
      else byte (255 - (255 >>> (ones - 8 * i))))

/-- Go `allFF`: every byte of the slice is `0xff`. -/
def allFF (b : List Byte) : Bool := b.all (fun c => c == 0xff)

/-- Go `IP.Mask`: the address with the mask applied, nil when the lengths do
not fit. -/
def Mask (ip : IP) (mask : IPMask) : IP :=
  let mask1 := if mask.length = IPv6len ∧ ip.length = IPv4len ∧ allFF (mask.take 12) = true
    then mask.drop 12 else mask
  let ip1 := if mask1.length = IPv4len ∧ ip.length = IPv6len ∧ ip.take 12 = v4InV6Prefix
    then ip.drop 12 else ip
  if ip1.length ≠ mask1.length then []
  else List.zipWith (fun (a b : Byte) => byte (a.val &&& b.val)) ip1 mask1

/-- Go type `net.IPNet`. -/
structure IPNet where
  /-- The network number. -/
  IP : IP
  /-- The network mask. -/
  Mask : IPMask
deriving DecidableEq, Repr

/-- Go `net.ParseCIDR`: the address and the network of `address/prefix-length`;
`none` is the non-nil `ParseError`. -/
def ParseCIDR (s : String) : Option (IP × IPNet) :=
  let cs := s.toList
  if ¬ cs.contains '/' then none
  else
    let addr := cs.takeWhile (fun c => c != '/')
    let mask := (cs.dropWhile (fun c => c != '/')).drop 1
    let ip4 := parseIPv4 addr
    let iplen := if ip4 = [] then IPv6len else IPv4len
    let ip := if ip4 = [] then parseIPv6 addr else ip4
    match dtoi mask with
    | (n, i, ok) =>
      if ip = [] ∨ ok = false ∨ i ≠ mask.length ∨ n > 8 * iplen then none
      else some (ip, { IP := Mask ip (CIDRMask n (8 * iplen)), Mask := CIDRMask n (8 * iplen) })

/-- Go `hexString`: two lower-case hexadecimal digits per byte. -/
def hexString (b : List Byte) : String :=
  String.mk (b.flatMap (fun t =>
    ["0123456789abcdef".toList.getD (t.val >>> 4) '0',
     "0123456789abcdef".toList.getD (t.val &&& 0xf) '0']))

/-- Go `IPMask.String`: the hexadecimal form of the mask, `<nil>` for an empty
one. -/
def IPMask.String (m : IPMask) : String :=
  if m.length = 0 then "<nil>" else hexString m

end net

/-! ## Package `encoding/binary` of the Go standard library -/

namespace binary

/-- Go `binary.BigEndian.Uint32`: reads the first four bytes as a big-endian
32-bit unsigned integer and panics (here `none`) on a slice shorter than 4. -/
def Uint32 (b : List Byte) : Option Nat :=
  match b with
  | b0 :: b1 :: b2 :: b3 :: _ =>
      some (b3.val ||| b2.val <<< 8 ||| b1.val <<< 16 ||| b0.val <<< 24)
  | _ => none

end binary

/-! ## Package `github.com/insomniacslk/dhcp/dhcpv4`

The plugin uses the packet type `DHCPv4`, its methods `MessageType` and
`UpdateOption`, and four option constructors.  The option store of a packet is
a Go map from option code to the encoded bytes of the option; it is embedded as
a function from codes to optional byte strings.  Packets are passed by pointer:
the handlers receive non-nil packets whose option map has been allocated (the
server builds the reply with `dhcpv4.NewReplyFromRequest`), and the packet
returned by the embedding is the state of the pointed-to reply after the
call. -/

namespace dhcpv4

/-- Go type `dhcpv4.OpcodeType`. -/
abbrev OpcodeType := Byte

/-- The operation code of a boot request. -/
def OpcodeBootRequest : OpcodeType := 1

/-- The operation code of a boot reply. -/
def OpcodeBootReply : OpcodeType := 2

/-- Go type `dhcpv4.MessageType`. -/
abbrev MessageType := Byte

/-- No message type. -/
def MessageTypeNone : MessageType := 0
/-- DHCPDISCOVER. -/
def MessageTypeDiscover : MessageType := 1
/-- DHCPOFFER. -/
def MessageTypeOffer : MessageType := 2
/-- DHCPREQUEST. -/
def MessageTypeRequest : MessageType := 3
/-- DHCPDECLINE. -/
def MessageTypeDecline : MessageType := 4
/-- DHCPACK. -/
def MessageTypeAck : MessageType := 5
/-- DHCPNAK. -/
def MessageTypeNak : MessageType := 6
/-- DHCPRELEASE. -/
def MessageTypeRelease : MessageType := 7
/-- DHCPINFORM. -/
def MessageTypeInform : MessageType := 8

/-- Option code of the subnet mask. -/
def OptionSubnetMask : Byte := 1
/-- Option code of the router list. -/
def OptionRouter : Byte := 3
/-- Option code of the DHCP message type. -/
def OptionDHCPMessageType : Byte := 53
/-- Option code of the server identifier. -/
def OptionServerIdentifier : Byte := 54

/-- Go type `dhcpv4.Options`, a map from option code to option bytes. -/
abbrev Options := Byte → Option (List Byte)

/-- The value carried by an option before it is encoded (Go interface
`OptionValue`), for the four kinds of value the plugin builds. -/
inductive OptionValue where
  | MessageType (m : MessageType)
  | IPMask (m : net.IPMask)
  | IP (ip : net.IP)
  | IPs (ips : List net.IP)
deriving DecidableEq, Repr

/-- The method `ToBytes` of the four option values: a message type is one
byte, a mask is its bytes, an address is its 4-byte form, a list of addresses
is the concatenation of their 4-byte forms. -/
def OptionValue.ToBytes : OptionValue → List Byte
  | .MessageType m => [m]
  | .IPMask m => m
  | .IP ip => net.To4 ip
  | .IPs ips => ips.flatMap net.To4

/-- Go type `dhcpv4.Option`: a code and a value. -/
structure DHCPOption where
  /-- The option code. -/
  Code : Byte
  /-- The option value. -/
  Value : OptionValue
deriving DecidableEq, Repr

/-- Go `dhcpv4.OptMessageType`. -/
def OptMessageType (m : MessageType) : DHCPOption :=
  { Code := OptionDHCPMessageType, Value := .MessageType m }

/-- Go `dhcpv4.OptSubnetMask`. -/
def OptSubnetMask (mask : net.IPMask) : DHCPOption :=
  { Code := OptionSubnetMask, Value := .IPMask mask }

/-- Go `dhcpv4.OptServerIdentifier`. -/
def OptServerIdentifier (ip : net.IP) : DHCPOption :=
  { Code := OptionServerIdentifier, Value := .IP ip }

/-- Go `dhcpv4.OptRouter`, a variadic function. -/
def OptRouter (routers : List net.IP) : DHCPOption :=
  { Code := OptionRouter, Value := .IPs routers }

/-- Go `Options.Update`: `o[option.Code] = option.Value.ToBytes()`. -/
def Options.Update (o : Options) (option : DHCPOption) : Options :=
  fun code => if code = option.Code then some option.Value.ToBytes else o code

/-- Go type `dhcpv4.DHCPv4`, a decoded DHCPv4 packet. -/
structure DHCPv4 where
  /-- Operation code. -/
  OpCode : OpcodeType
  /-- Hardware type. -/
  HWType : Nat
  /-- Hop count. -/
  HopCount : Nat
  /-- Transaction identifier. -/
  TransactionID : List Byte
  /-- Seconds elapsed. -/
  NumSeconds : Nat
  /-- Flags. -/
  Flags : Nat
  /-- Client address `ciaddr`. -/
  ClientIPAddr : net.IP
  /-- Offered address `yiaddr`. -/
  YourIPAddr : net.IP
  /-- Next-server address `siaddr`. -/
  ServerIPAddr : net.IP
  /-- Relay address `giaddr`. -/
  GatewayIPAddr : net.IP
  /-- Client hardware address. -/
  ClientHWAddr : List Byte
  /-- Server host name. -/
  ServerHostName : String
  /-- Boot file name. -/
  BootFileName : String
  /-- The options of the packet. -/
  Options : Options

/-- Go `(*DHCPv4).UpdateOption`: replaces or adds the option. -/
def DHCPv4.UpdateOption (d : DHCPv4) (opt : DHCPOption) : DHCPv4 :=
  { d with Options := d.Options.Update opt }

/-- Go `(*DHCPv4).MessageType`: the message type held by the message-type
option when that option is present and one byte long, `MessageTypeNone`
otherwise. -/
def DHCPv4.MessageType (d : DHCPv4) : MessageType :=
  match d.Options OptionDHCPMessageType with
  | some [m] => m
  | _ => MessageTypeNone

/-- A packet with the given operation code and options and zeroed header. -/
def newPacket (op : OpcodeType) (opts : Options) : DHCPv4 :=
  { OpCode := op, HWType := 1, HopCount := 0, TransactionID := [0, 0, 0, 0],
    NumSeconds := 0, Flags := 0, ClientIPAddr := net.IPv4 0 0 0 0,
    YourIPAddr := net.IPv4 0 0 0 0, ServerIPAddr := net.IPv4 0 0 0 0,
    GatewayIPAddr := net.IPv4 0 0 0 0, ClientHWAddr := [], ServerHostName := "",
    BootFileName := "", Options := opts }

/-- The empty option map. -/
def noOptions : Options := fun _ => none

end dhcpv4

/-! ## `plugin.go`: package state and handlers -/

/-- The package-level variables `serverIP`, `netmask` and `ClientSubnet` of
`plugin.go`.  (The variable `StaticRecords` is declared and never used.) -/
structure Globals where
  /-- The variable `serverIP`. -/
  serverIP : net.IP
  /-- The variable `netmask`. -/
  netmask : net.IP
  /-- The variable `ClientSubnet`. -/
  ClientSubnet : net.IPMask
deriving DecidableEq, Repr

/-- The state of the package variables before any setup: all three are nil. -/
def Globals.initial : Globals := { serverIP := [], netmask := [], ClientSubnet := [] }

/-- A line written through `log.Printf`. -/
inductive LogLine where
  /-- The line `plugins/server: Not a BootRequest!`. -/
  | NotABootRequest
  /-- The line `plugins/server: Unhandled message type: %v`. -/
  | UnhandledMessageType (mt : dhcpv4.MessageType)
  /-- The line `plugins/DNS: loaded plugin for DHCPv4.`. -/
  | LoadedPlugin
deriving DecidableEq, Repr

/-- What a call of `Handler4` produces: the reply after the call, the boolean
it returns and the lines it logs. -/
structure Handler4Result where
  /-- The returned reply. -/
  resp : dhcpv4.DHCPv4
  /-- The returned boolean. -/
  ok : Bool
  /-- The lines logged, in order. -/
  log : List LogLine

/-- The function `Handler6` of `plugin.go`, for any type of IPv6 packet. -/
def Handler6 {DHCPv6 : Type} (_req resp : DHCPv6) : DHCPv6 × Bool := (resp, true)

/-- The function `Handler4` of `plugin.go`, reading the package variables
`g`. -/
def Handler4 (g : Globals) (req resp : dhcpv4.DHCPv4) : Handler4Result :=
  let log1 : List LogLine :=
    if req.OpCode ≠ dhcpv4.OpcodeBootRequest then [LogLine.NotABootRequest] else []
  let mt := req.MessageType
  if mt = dhcpv4.MessageTypeDiscover then
    { resp := (((resp.UpdateOption (dhcpv4.OptMessageType dhcpv4.MessageTypeOffer)).UpdateOption
        (dhcpv4.OptSubnetMask g.ClientSubnet)).UpdateOption
        (dhcpv4.OptServerIdentifier g.serverIP)).UpdateOption (dhcpv4.OptRouter [g.serverIP]),
      ok := true, log := log1 }
  else if mt = dhcpv4.MessageTypeRequest then
    { resp := (((resp.UpdateOption (dhcpv4.OptMessageType dhcpv4.MessageTypeAck)).UpdateOption
        (dhcpv4.OptSubnetMask g.ClientSubnet)).UpdateOption
        (dhcpv4.OptServerIdentifier g.serverIP)).UpdateOption (dhcpv4.OptRouter [g.serverIP]),
      ok := true, log := log1 }
  else
    { resp := resp, ok := true, log := log1 ++ [LogLine.UnhandledMessageType mt] }

/-! ## `plugin.go`: the netmask check -/

/-- Bitwise complement `^x` of a `uint32`. -/
def not32 (x : Nat) : Nat := 4294967295 - x % 4294967296

/-- Addition of two `uint32` values, wrapping modulo `2^32`. -/
def add32 (x y : Nat) : Nat := (x + y) % 4294967296

/-- The function `checkValidNetmask` of `plugin.go`.  The result `none` is the
panic of `binary.BigEndian.Uint32` on a nil `netmask.To4()`. -/
def checkValidNetmask (netmask : net.IP) : Option Bool :=
  if net.To16 netmask = [] then some false
  else if net.IsUnspecified netmask then some false
  else
    match binary.Uint32 (net.To4 netmask) with
    | none => none
    | some netmaskInt =>
        let x := not32 netmaskInt
        let y := add32 x 1
        some (y &&& x == 0)

/-- Go `binary.BigEndian.PutUint32`: the four big-endian bytes of a 32-bit
value, most significant byte first. -/
def bytesOf32 (m : Nat) : List Byte :=
  [byte (m / 16777216), byte (m / 65536), byte (m / 256), byte m]


/-! ## `plugin.go`: setup -/

/-- A value of type `handler.Handler6` as the setup functions return it: nil,
or the function `Handler6` of this package. -/
inductive Handler6Value where
  | nil
  | Handler6
deriving DecidableEq, Repr

/-- A value of type `handler.Handler4` as the setup functions return it: nil,
or the function `Handler4` of this package. -/
inductive Handler4Value where
  | nil
  | Handler4
deriving DecidableEq, Repr

/-- How a call of `setupServer` ends: it returns its three results, leaving the
package variables as `g` and having logged `log`, or it panics, leaving the
package variables as `g`. -/
inductive SetupOutcome where
  | returned (g : Globals) (h6 : Handler6Value) (h4 : Handler4Value)
      (err : Option String) (log : List LogLine)
  | panicked (g : Globals)
deriving DecidableEq, Repr

/-- The function `setupServer` of `plugin.go`, started with the package
variables `g`. -/
def setupServer (v6 : Bool) (args : List String) (g : Globals) : SetupOutcome :=
  if v6 then .returned g .Handler6 .Handler4 none []
  else if args.length < 2 then
    .returned g .nil .nil
      (some "plugins/server: need a file name, server IP, netmask and a DNS server") []
  else
    match net.ParseCIDR (args.getD 0 "") with
    | none =>
      .returned g .Handler6 .Handler4
        (some ("plugins/server: expected an IPv4 address, got: " ++ args.getD 0 "")) []
    | some (ip, network) =>
      let g1 := { g with serverIP := ip }
      match network.Mask[0]? with
      | none => .panicked g1
      | some m0 =>
        let g2 := { g1 with netmask := net.IPv4 m0 m0 m0 m0 }
        match checkValidNetmask g2.netmask with
        | none => .panicked g2
        | some false =>
          .returned g2 .Handler6 .Handler4
            (some ("plugins/server: netmask is not valid, got: " ++ args.getD 0 "")) []
        | some true =>
          let subnet := net.ParseIP (args.getD 1 "")
          if net.To16 subnet = [] then
            .returned g2 .Handler6 .Handler4
              (some ("plugins/server: expected an IPv4 address, got:"
                ++ net.IPMask.String g2.ClientSubnet)) []
          else
            let subnet4 := net.To4 subnet
            match subnet4[0]?, subnet4[1]?, subnet4[2]?, subnet4[3]? with
            | some s0, some s1, some s2, some s3 =>
              .returned { g2 with ClientSubnet := net.IPv4Mask s0 s1 s2 s3 }
                .Handler6 .Handler4 none [LogLine.LoadedPlugin]
            | _, _, _, _ => .panicked g2

/-- How a call of `setupServerV4` ends: it returns its two results, or it
panics. -/
inductive SetupV4Outcome where
  | returned (g : Globals) (h4 : Handler4Value) (err : Option String) (log : List LogLine)
  | panicked (g : Globals)
deriving DecidableEq, Repr

/-- The function `setupServerV4` of `plugin.go`. -/
def setupServerV4 (args : List String) (g : Globals) : SetupV4Outcome :=
  match setupServer false args g with
  | .returned g1 _ h4 err log => .returned g1 h4 err log
  | .panicked g1 => .panicked g1

/-- The function `setupServerV6` of `plugin.go`: a nil handler and a nil
error, the package variables untouched. -/
def setupServerV6 (_args : List String) : Handler6Value × Option String := (.nil, none)

/-! ## `Handler4` as a program on the memory of the process

`Handler4` receives two pointers and runs in a process whose memory holds the
package variables, the packets and the log.  Here the function is embedded
statement by statement as a transformer of that memory: reading through a
pointer looks the packet up, `UpdateOption` through a pointer writes the packet
back, `log.Printf` appends a line, and the package variables are read from the
memory at the statement that uses them.  Dereferencing a pointer at which the
memory holds no packet (nil) is a panic, `none`. -/

/-- A pointer of type `*dhcpv4.DHCPv4`. -/
abbrev Ptr := Nat

/-- The memory of the process: the package variables, the packets reachable
through pointers, and the lines logged so far. -/
structure World where
  /-- The package variables. -/
  globals : Globals
  /-- The packet each pointer points to, if any. -/
  heap : Ptr → Option dhcpv4.DHCPv4
  /-- The lines logged so far. -/
  log : List LogLine

/-- The memory after the packet `d` has been stored at `p`. -/
def World.setPacket (w : World) (p : Ptr) (d : dhcpv4.DHCPv4) : World :=
  { w with heap := fun q => if q = p then some d else w.heap q }

/-- The statement `p.UpdateOption(opt)` on the memory. -/
def World.UpdateOption (w : World) (p : Ptr) (opt : dhcpv4.DHCPOption) : Option World :=
  match w.heap p with
  | none => none
  | some d => some (w.setPacket p (d.UpdateOption opt))

/-- The statement `log.Printf(...)` on the memory. -/
def World.Printf (w : World) (l : LogLine) : World :=
  { w with log := w.log ++ [l] }

/-- The function `Handler4` of `plugin.go` as a program on the memory: the
returned pointer and boolean, and the memory after the call. -/
def Handler4S (req resp : Ptr) (w : World) : Option ((Ptr × Bool) × World) :=
  match w.heap req with
  | none => none
  | some rq =>
    let w1 := if rq.OpCode ≠ dhcpv4.OpcodeBootRequest then w.Printf LogLine.NotABootRequest
      else w
    if rq.MessageType = dhcpv4.MessageTypeDiscover then
      (w1.UpdateOption resp (dhcpv4.OptMessageType dhcpv4.MessageTypeOffer)).bind fun w2 =>
      (w2.UpdateOption resp (dhcpv4.OptSubnetMask w2.globals.ClientSubnet)).bind fun w3 =>
      (w3.UpdateOption resp (dhcpv4.OptServerIdentifier w3.globals.serverIP)).bind fun w4 =>
      (w4.UpdateOption resp (dhcpv4.OptRouter [w4.globals.serverIP])).bind fun w5 =>
      some ((resp, true), w5)
    else if rq.MessageType = dhcpv4.MessageTypeRequest then
      (w1.UpdateOption resp (dhcpv4.OptMessageType dhcpv4.MessageTypeAck)).bind fun w2 =>
      (w2.UpdateOption resp (dhcpv4.OptSubnetMask w2.globals.ClientSubnet)).bind fun w3 =>
      (w3.UpdateOption resp (dhcpv4.OptServerIdentifier w3.globals.serverIP)).bind fun w4 =>
      (w4.UpdateOption resp (dhcpv4.OptRouter [w4.globals.serverIP])).bind fun w5 =>
      some ((resp, true), w5)
    else
      some ((resp, true), w1.Printf (LogLine.UnhandledMessageType rq.MessageType))

/-- A sequence of calls `Handler4(req, resp)` run one after the other on the
memory: the values returned, in call order, and the memory at the end. -/
def runCalls : List (Ptr × Ptr) → World → Option (List (Ptr × Bool) × World)
  | [], w => some ([], w)
  | (req, resp) :: rest, w =>
    (Handler4S req resp w).bind fun r1 =>
    (runCalls rest r1.2).bind fun r2 =>
    some (r1.1 :: r2.1, r2.2)

/-- A memory with two requests, a discover at pointer 1 and a release at
pointer 2, two reply templates at pointers 3 and 4, and the configuration
`serverIP = 10.0.0.1`, `ClientSubnet = 255.255.255.0`. -/
def sampleWorld : World :=
  { globals := { serverIP := net.IPv4 10 0 0 1, netmask := net.IPv4 255 255 255 255,
                 ClientSubnet := net.IPv4Mask 255 255 255 0 },
    heap := fun p =>
      if p = 1 then
        some (dhcpv4.newPacket dhcpv4.OpcodeBootRequest
          (dhcpv4.Options.Update dhcpv4.noOptions
            (dhcpv4.OptMessageType dhcpv4.MessageTypeDiscover)))
      else if p = 2 then
        some (dhcpv4.newPacket dhcpv4.OpcodeBootRequest
          (dhcpv4.Options.Update dhcpv4.noOptions
            (dhcpv4.OptMessageType dhcpv4.MessageTypeRelease)))
      else if p = 3 ∨ p = 4 then
        some (dhcpv4.newPacket dhcpv4.OpcodeBootReply dhcpv4.noOptions)
      else none,
    log := [] }

/-- The reply after the four updates of `Handler4`, for any message type. -/
def fourUpdates (g : Globals) (resp : dhcpv4.DHCPv4) (mt : dhcpv4.MessageType) :
    dhcpv4.DHCPv4 :=
  (((resp.UpdateOption (dhcpv4.OptMessageType mt)).UpdateOption
    (dhcpv4.OptSubnetMask g.ClientSubnet)).UpdateOption
    (dhcpv4.OptServerIdentifier g.serverIP)).UpdateOption (dhcpv4.OptRouter [g.serverIP])

/-! ## Sample values -/

/-- The configuration `serverIP = 10.0.0.1`, `ClientSubnet = 255.255.255.0`. -/
def sampleGlobals : Globals :=
  { serverIP := net.IPv4 10 0 0 1, netmask := net.IPv4 255 255 255 255,
    ClientSubnet := net.IPv4Mask 255 255 255 0 }

/-- The configuration that `setupServer` leaves for the arguments
`2001:db8::1/32` and `255.255.255.0`: `serverIP` is the IPv6 address
`2001:db8::1`. -/
def ipv6Globals : Globals :=
  { serverIP := [0x20, 0x01, 0x0d, 0xb8, 0, 0, 0, 0, 0, 0, 0, 0, 0, 0, 0, 1],
    netmask := net.IPv4 255 255 255 255,
    ClientSubnet := net.IPv4Mask 255 255 255 0 }

/-- A boot request carrying the message type `mt`. -/
def sampleRequest (mt : dhcpv4.MessageType) : dhcpv4.DHCPv4 :=
  dhcpv4.newPacket dhcpv4.OpcodeBootRequest
    (dhcpv4.Options.Update dhcpv4.noOptions (dhcpv4.OptMessageType mt))

/-- A boot request without a message-type option. -/
def sampleRequestNoType : dhcpv4.DHCPv4 :=
  dhcpv4.newPacket dhcpv4.OpcodeBootRequest dhcpv4.noOptions

/-- A reply template: a boot reply without options. -/
def sampleReply : dhcpv4.DHCPv4 :=
  dhcpv4.newPacket dhcpv4.OpcodeBootReply dhcpv4.noOptions

/-! ## Vocabulary of the specification -/

/-- The 32-bit word of a 4-byte value, most significant byte first. -/
def word32 (a b c d : Byte) : Nat :=
  a.val * 16777216 + b.val * 65536 + c.val * 256 + d.val

/-- A mask as the specification describes a valid one: an IPv4 value (four
bytes, or the 16-byte IPv4-mapped form) that is non-zero and whose 1-bits are a
run starting at the most significant bit, that is whose word is `2^32 - 2^j`
for some `j ≤ 31`. -/
def ContiguousMask (m : List Byte) : Prop :=
  ∃ a b c d, net.To4 m = [a, b, c, d] ∧ word32 a b c d ≠ 0
    ∧ ∃ j, j ≤ 31 ∧ word32 a b c d = 2 ^ 32 - 2 ^ j

/-- An IPv4 address as Go represents one: a value with a 4-byte form. -/
def IsIPv4 (ip : net.IP) : Prop := (net.To4 ip).length = 4

/-! ## Arithmetic facts used by the proofs -/

theorem succ_land_self_eq_zero_iff (x : Nat) :
    (x + 1) &&& x = 0 ↔ ∃ j, x + 1 = 2 ^ j := by
  induction x using Nat.strong_induction_on with
  | _ x ih =>
    have hmod : ((x + 1) &&& x) % 2 = 0 := by
      have h := @Nat.and_mod_two_eq_one (x + 1) x
      by_contra hne
      have h1 : ((x + 1) &&& x) % 2 = 1 := by omega
      have := h.mp h1
      omega
    have hdiv : ((x + 1) &&& x) / 2 = (x + 1) / 2 &&& x / 2 := Nat.and_div_two
    have hz : (x + 1) &&& x = 0 ↔ (x + 1) / 2 &&& x / 2 = 0 := by
      rw [← hdiv]; omega
    rw [hz]
    rcases Nat.even_or_odd' x with ⟨k, rfl | rfl⟩
    · have e1 : (2 * k + 1) / 2 = k := by omega
      have e2 : (2 * k) / 2 = k := by omega
      rw [e1, e2, Nat.and_self]
      constructor
      · rintro rfl; exact ⟨0, rfl⟩
      · rintro ⟨j, hj⟩
        cases j with
        | zero => simp at hj; exact hj
        | succ j => rw [pow_succ] at hj; omega
    · have e1 : (2 * k + 1 + 1) / 2 = k + 1 := by omega
      have e2 : (2 * k + 1) / 2 = k := by omega
      rw [e1, e2, ih k (by omega)]
      constructor
      · rintro ⟨j, hj⟩; exact ⟨j + 1, by rw [pow_succ]; omega⟩
      · rintro ⟨j, hj⟩
        cases j with
        | zero => simp at hj
        | succ j => exact ⟨j, by rw [pow_succ] at hj; omega⟩

theorem lor_shiftLeft_eq_add (lo hi k : Nat) (h : lo < 2 ^ k) :
    lo ||| hi <<< k = hi * 2 ^ k + lo := by
  rw [Nat.shiftLeft_eq, Nat.lor_comm, Nat.mul_comm, ← Nat.mul_add_lt_is_or h]

/-- The big-endian word of four bytes, written with sums instead of shifts. -/
theorem Uint32_eq_sum (a b c d : Byte) :
    binary.Uint32 [a, b, c, d]
      = some (a.val * 16777216 + b.val * 65536 + c.val * 256 + d.val) := by
  have ha := a.isLt
  have hb := b.isLt
  have hc := c.isLt
  have hd := d.isLt
  have e1 : d.val ||| c.val <<< 8 = c.val * 256 + d.val := by
    have h := lor_shiftLeft_eq_add d.val c.val 8 (by norm_num)
    norm_num at h; exact h
  have e2 : (c.val * 256 + d.val) ||| b.val <<< 16
      = b.val * 65536 + (c.val * 256 + d.val) := by
    have h := lor_shiftLeft_eq_add (c.val * 256 + d.val) b.val 16 (by norm_num; omega)
    norm_num at h; exact h
  have e3 : (b.val * 65536 + (c.val * 256 + d.val)) ||| a.val <<< 24
      = a.val * 16777216 + (b.val * 65536 + (c.val * 256 + d.val)) := by
    have h := lor_shiftLeft_eq_add (b.val * 65536 + (c.val * 256 + d.val)) a.val 24
      (by norm_num; omega)
    norm_num at h; exact h
  have e0 : binary.Uint32 [a, b, c, d]
      = some (d.val ||| c.val <<< 8 ||| b.val <<< 16 ||| a.val <<< 24) := rfl
  rw [e0, e1, e2, e3]
  exact congrArg some (by omega)

theorem Uint32_bytesOf32 (m : Nat) (hm : m < 4294967296) :
    binary.Uint32 (bytesOf32 m) = some m := by
  rw [bytesOf32, Uint32_eq_sum]
  simp only [byte]
  exact congrArg some (by omega)

/-- The arithmetic core of the netmask test on a 32-bit word. -/
theorem netmask_word_test (m : Nat) (hm : m < 4294967296) (h0 : m ≠ 0) :
    (add32 (not32 m) 1 &&& not32 m == 0) = true
      ↔ ∃ j, j ≤ 31 ∧ m = 2 ^ 32 - 2 ^ j := by
  have hx : not32 m = 4294967295 - m := by
    simp only [not32]; omega
  have hy : add32 (not32 m) 1 = (4294967295 - m) + 1 := by
    simp only [add32, hx]; omega
  rw [hy, hx, beq_iff_eq, succ_land_self_eq_zero_iff]
  constructor
  · rintro ⟨j, hj⟩
    have hlt : 2 ^ j < 2 ^ 32 := by
      have : (2 : Nat) ^ 32 = 4294967296 := by norm_num
      omega
    have hj32 : j < 32 := (Nat.pow_lt_pow_iff_right (by decide)).mp hlt
    refine ⟨j, by omega, ?_⟩
    have : (2 : Nat) ^ 32 = 4294967296 := by norm_num
    omega
  · rintro ⟨j, hj, hm2⟩
    refine ⟨j, ?_⟩
    have hle : 2 ^ j ≤ 2 ^ 31 := Nat.pow_le_pow_right (by decide) hj
    have h31 : (2 : Nat) ^ 31 = 2147483648 := by norm_num
    have h32 : (2 : Nat) ^ 32 = 4294967296 := by norm_num
    omega

/-- The check on a 4-byte address: the zero address is refused, any other one
is decided by the word test. -/
theorem checkValidNetmask_four (a b c d : Byte) :
    checkValidNetmask [a, b, c, d]
      = if a = 0 ∧ b = 0 ∧ c = 0 ∧ d = 0 then some false
        else (binary.Uint32 [a, b, c, d]).map
          (fun n => add32 (not32 n) 1 &&& not32 n == 0) := by
  simp [checkValidNetmask, net.To16, net.To4, net.IsUnspecified, net.Equal, net.IPv4len,
    net.IPv6len, net.IPv4, net.IPv4zero, net.IPv6unspecified, net.v4InV6Prefix,
    Uint32_eq_sum]

/-- The check on the 16-byte form built by `net.IPv4`: same result as on the
4-byte form. -/
theorem checkValidNetmask_IPv4 (a b c d : Byte) :
    checkValidNetmask (net.IPv4 a b c d) = checkValidNetmask [a, b, c, d] := by
  rw [checkValidNetmask_four]
  simp [checkValidNetmask, net.To16, net.To4, net.IsUnspecified, net.Equal, net.IPv4len,
    net.IPv6len, net.IPv4, net.IPv4zero, net.IPv6unspecified, net.v4InV6Prefix,
    net.isZeros, Uint32_eq_sum]

theorem bytesOf32_eq_zero_iff (m : Nat) (hm : m < 4294967296) :
    (byte (m / 16777216) = 0 ∧ byte (m / 65536) = 0 ∧ byte (m / 256) = 0 ∧ byte m = 0)
      ↔ m = 0 := by
  simp only [byte, Fin.ext_iff]
  constructor
  · rintro ⟨h1, h2, h3, h4⟩
    simp at h1 h2 h3 h4
    omega
  · rintro rfl
    simp

/-- Claim C1.  For every 32-bit value `m`, `checkValidNetmask` applied to the
IPv4 value whose big-endian bytes are those of `m` (in its 4-byte form and in
the 16-byte form built by `net.IPv4`) returns a boolean, and that boolean is
true exactly when `m` is non-zero and `m = 2^32 - 2^j` for some `j ≤ 31`, that
is when the binary form of `m` is a run of 1-bits starting at the most
significant bit. -/
theorem checkValidNetmask_iff_contiguous (m : Nat) (hm : m < 2 ^ 32) :
    (∃ r, checkValidNetmask (bytesOf32 m) = some r
        ∧ (r = true ↔ (m ≠ 0 ∧ ∃ j, j ≤ 31 ∧ m = 2 ^ 32 - 2 ^ j)))
    ∧ (∃ r, checkValidNetmask
          (net.IPv4 (byte (m / 16777216)) (byte (m / 65536)) (byte (m / 256)) (byte m))
          = some r
        ∧ (r = true ↔ (m ≠ 0 ∧ ∃ j, j ≤ 31 ∧ m = 2 ^ 32 - 2 ^ j))) := by
  have hm2 : m < 4294967296 := by
    have : (2 : Nat) ^ 32 = 4294967296 := by norm_num
    omega
  have key : ∃ r, checkValidNetmask (bytesOf32 m) = some r
        ∧ (r = true ↔ (m ≠ 0 ∧ ∃ j, j ≤ 31 ∧ m = 2 ^ 32 - 2 ^ j)) := by
    have hU := Uint32_bytesOf32 m hm2
    rw [bytesOf32] at hU ⊢
    rw [checkValidNetmask_four, hU]
    by_cases h0 : m = 0
    · rw [if_pos ((bytesOf32_eq_zero_iff m hm2).mpr h0)]
      exact ⟨false, rfl, by simp [h0]⟩
    · rw [if_neg (fun h => h0 ((bytesOf32_eq_zero_iff m hm2).mp h))]
      refine ⟨_, rfl, ?_⟩
      rw [netmask_word_test m hm2 h0]
      simp [h0]
  refine ⟨key, ?_⟩
  rw [checkValidNetmask_IPv4]
  exact key

/-- Claim C1 at the five addresses the specification lists: `255.255.255.0`,
`255.255.255.255` and `128.0.0.0` are valid, `0.0.0.0` and `255.0.255.0` are
not. -/
theorem checkValidNetmask_examples :
    checkValidNetmask (net.IPv4 255 255 255 0) = some true
    ∧ checkValidNetmask (net.IPv4 255 255 255 255) = some true
    ∧ checkValidNetmask (net.IPv4 128 0 0 0) = some true
    ∧ checkValidNetmask (net.IPv4 0 0 0 0) = some false
    ∧ checkValidNetmask (net.IPv4 255 0 255 0) = some false := by
  decide

/-- Witness of claim C1 at `m = 0xFFFFFF00`, the mask `255.255.255.0`. -/
theorem checkValidNetmask_iff_contiguous_witness :
    (4294967040 < 2 ^ 32)
    ∧ ((∃ r, checkValidNetmask (bytesOf32 4294967040) = some r
        ∧ (r = true ↔ (4294967040 ≠ 0 ∧ ∃ j, j ≤ 31 ∧ 4294967040 = 2 ^ 32 - 2 ^ j)))
      ∧ (∃ r, checkValidNetmask
          (net.IPv4 (byte (4294967040 / 16777216)) (byte (4294967040 / 65536))
            (byte (4294967040 / 256)) (byte 4294967040))
          = some r
        ∧ (r = true ↔ (4294967040 ≠ 0 ∧ ∃ j, j ≤ 31 ∧ 4294967040 = 2 ^ 32 - 2 ^ j)))) :=
  ⟨by norm_num, checkValidNetmask_iff_contiguous 4294967040 (by norm_num)⟩

/-! ## The handler `Handler4` -/

/-- Claim C2, refuted as stated.  The arguments `2001:db8::1/32` and
`255.255.255.0` make `setupServer` return a nil error and leave the IPv6
address `2001:db8::1` in `serverIP`; under that configuration a discover
request gets a server-identifier option and a router option that are empty,
not the address `serverIP`. -/
theorem Handler4_discover_ipv6_serverIP :
    setupServer false ["2001:db8::1/32", "255.255.255.0"] Globals.initial
      = .returned ipv6Globals .Handler6 .Handler4 none [LogLine.LoadedPlugin]
    ∧ (sampleRequest dhcpv4.MessageTypeDiscover).MessageType = dhcpv4.MessageTypeDiscover
    ∧ (Handler4 ipv6Globals (sampleRequest dhcpv4.MessageTypeDiscover) sampleReply).resp.Options
        dhcpv4.OptionServerIdentifier = some []
    ∧ (Handler4 ipv6Globals (sampleRequest dhcpv4.MessageTypeDiscover) sampleReply).resp.Options
        dhcpv4.OptionRouter = some []
    ∧ (Handler4 ipv6Globals (sampleRequest dhcpv4.MessageTypeDiscover) sampleReply).resp.Options
        dhcpv4.OptionServerIdentifier ≠ some ipv6Globals.serverIP
    ∧ (Handler4 ipv6Globals (sampleRequest dhcpv4.MessageTypeDiscover) sampleReply).resp.Options
        dhcpv4.OptionRouter ≠ some ipv6Globals.serverIP := by
  decide

/-- Claim C2, amended.  For every request whose message type is discover,
every reply and every value of the package variables, `Handler4` returns the
boolean true and a reply whose message type is offer and whose subnet-mask
option holds `ClientSubnet`; and whenever `serverIP` is an IPv4 address
`a.b.c.d`, in its 4-byte or its 16-byte form, the server-identifier option and
the router option hold the four bytes `a.b.c.d`. -/
theorem Handler4_discover (g : Globals) (req resp : dhcpv4.DHCPv4)
    (h : req.MessageType = dhcpv4.MessageTypeDiscover) :
    (Handler4 g req resp).ok = true
    ∧ (Handler4 g req resp).resp.MessageType = dhcpv4.MessageTypeOffer
    ∧ (Handler4 g req resp).resp.Options dhcpv4.OptionDHCPMessageType
        = some [dhcpv4.MessageTypeOffer]
    ∧ (Handler4 g req resp).resp.Options dhcpv4.OptionSubnetMask = some g.ClientSubnet
    ∧ (∀ a b c d : Byte, net.To4 g.serverIP = [a, b, c, d] →
        (Handler4 g req resp).resp.Options dhcpv4.OptionServerIdentifier = some [a, b, c, d]
        ∧ (Handler4 g req resp).resp.Options dhcpv4.OptionRouter = some [a, b, c, d]) := by
  have hr : (Handler4 g req resp).resp
      = (((resp.UpdateOption (dhcpv4.OptMessageType dhcpv4.MessageTypeOffer)).UpdateOption
        (dhcpv4.OptSubnetMask g.ClientSubnet)).UpdateOption
        (dhcpv4.OptServerIdentifier g.serverIP)).UpdateOption (dhcpv4.OptRouter [g.serverIP]) := by
    simp [Handler4, h]
  refine ⟨by simp [Handler4, h], ?_, ?_, ?_, ?_⟩
  · rw [hr]; rfl
  · rw [hr]; rfl
  · rw [hr]; rfl
  · intro a b c d hip
    have e54 : (Handler4 g req resp).resp.Options dhcpv4.OptionServerIdentifier
        = some (net.To4 g.serverIP) := by rw [hr]; rfl
    have e3 : (Handler4 g req resp).resp.Options dhcpv4.OptionRouter
        = some ([g.serverIP].flatMap net.To4) := by rw [hr]; rfl
    rw [e54, e3, List.flatMap_cons, List.flatMap_nil, List.append_nil, hip]
    exact ⟨rfl, rfl⟩

/-- Witness of the amended claim C2: `serverIP = 10.0.0.1`,
`ClientSubnet = 255.255.255.0`, a discover request and an empty reply. -/
theorem Handler4_discover_witness :
    (sampleRequest dhcpv4.MessageTypeDiscover).MessageType = dhcpv4.MessageTypeDiscover
    ∧ net.To4 sampleGlobals.serverIP = [10, 0, 0, 1]
    ∧ (Handler4 sampleGlobals (sampleRequest dhcpv4.MessageTypeDiscover) sampleReply).ok = true
    ∧ (Handler4 sampleGlobals (sampleRequest dhcpv4.MessageTypeDiscover) sampleReply).resp.MessageType
        = dhcpv4.MessageTypeOffer
    ∧ (Handler4 sampleGlobals (sampleRequest dhcpv4.MessageTypeDiscover) sampleReply).resp.Options
        dhcpv4.OptionSubnetMask = some [255, 255, 255, 0]
    ∧ (Handler4 sampleGlobals (sampleRequest dhcpv4.MessageTypeDiscover) sampleReply).resp.Options
        dhcpv4.OptionServerIdentifier = some [10, 0, 0, 1]
    ∧ (Handler4 sampleGlobals (sampleRequest dhcpv4.MessageTypeDiscover) sampleReply).resp.Options
        dhcpv4.OptionRouter = some [10, 0, 0, 1] :=
  have w := Handler4_discover sampleGlobals (sampleRequest dhcpv4.MessageTypeDiscover)
    sampleReply (by decide)
  ⟨by decide, by decide, w.1, w.2.1, w.2.2.2.1,
    (w.2.2.2.2 10 0 0 1 (by decide)).1, (w.2.2.2.2 10 0 0 1 (by decide)).2⟩

/-- Claim C3.  For every request whose message type is request, every reply
and every value of the package variables, `Handler4` returns the boolean true
and a reply whose message type is acknowledge and whose subnet-mask,
server-identifier and router options hold `ClientSubnet`, `serverIP` and
`serverIP`, the very values that any discover request produces on the same
reply under the same package variables. -/
theorem Handler4_request (g : Globals) (req resp : dhcpv4.DHCPv4)
    (h : req.MessageType = dhcpv4.MessageTypeRequest) :
    (Handler4 g req resp).ok = true
    ∧ (Handler4 g req resp).resp.MessageType = dhcpv4.MessageTypeAck
    ∧ (Handler4 g req resp).resp.Options dhcpv4.OptionDHCPMessageType
        = some [dhcpv4.MessageTypeAck]
    ∧ (Handler4 g req resp).resp.Options dhcpv4.OptionSubnetMask = some g.ClientSubnet
    ∧ (Handler4 g req resp).resp.Options dhcpv4.OptionServerIdentifier
        = some (dhcpv4.OptServerIdentifier g.serverIP).Value.ToBytes
    ∧ (Handler4 g req resp).resp.Options dhcpv4.OptionRouter
        = some (dhcpv4.OptRouter [g.serverIP]).Value.ToBytes
    ∧ (∀ a b c d, g.serverIP = net.IPv4 a b c d →
        (Handler4 g req resp).resp.Options dhcpv4.OptionServerIdentifier = some [a, b, c, d]
        ∧ (Handler4 g req resp).resp.Options dhcpv4.OptionRouter = some [a, b, c, d])
    ∧ (∀ disc : dhcpv4.DHCPv4, disc.MessageType = dhcpv4.MessageTypeDiscover →
        (Handler4 g req resp).resp.Options dhcpv4.OptionSubnetMask
          = (Handler4 g disc resp).resp.Options dhcpv4.OptionSubnetMask
        ∧ (Handler4 g req resp).resp.Options dhcpv4.OptionServerIdentifier
          = (Handler4 g disc resp).resp.Options dhcpv4.OptionServerIdentifier
        ∧ (Handler4 g req resp).resp.Options dhcpv4.OptionRouter
          = (Handler4 g disc resp).resp.Options dhcpv4.OptionRouter) := by
  have hne : req.MessageType ≠ dhcpv4.MessageTypeDiscover := by rw [h]; decide
  have hr : (Handler4 g req resp).resp
      = (((resp.UpdateOption (dhcpv4.OptMessageType dhcpv4.MessageTypeAck)).UpdateOption
        (dhcpv4.OptSubnetMask g.ClientSubnet)).UpdateOption
        (dhcpv4.OptServerIdentifier g.serverIP)).UpdateOption (dhcpv4.OptRouter [g.serverIP]) := by
    simp only [Handler4, if_neg hne, if_pos h]
  refine ⟨by simp only [Handler4, if_neg hne, if_pos h], ?_, ?_, ?_, ?_, ?_, ?_, ?_⟩
  · rw [hr]; rfl
  · rw [hr]; rfl
  · rw [hr]; rfl
  · rw [hr]; rfl
  · rw [hr]; rfl
  · intro a b c d hip
    rw [hr, hip]
    exact ⟨rfl, rfl⟩
  · intro disc hd
    have hdr : (Handler4 g disc resp).resp
        = (((resp.UpdateOption (dhcpv4.OptMessageType dhcpv4.MessageTypeOffer)).UpdateOption
          (dhcpv4.OptSubnetMask g.ClientSubnet)).UpdateOption
          (dhcpv4.OptServerIdentifier g.serverIP)).UpdateOption
          (dhcpv4.OptRouter [g.serverIP]) := by
      simp [Handler4, hd]
    rw [hr, hdr]
    exact ⟨rfl, rfl, rfl⟩

/-- Witness of claim C3: `serverIP = 10.0.0.1`, `ClientSubnet = 255.255.255.0`,
a request message and an empty reply. -/
theorem Handler4_request_witness :
    (sampleRequest dhcpv4.MessageTypeRequest).MessageType = dhcpv4.MessageTypeRequest
    ∧ (Handler4 sampleGlobals (sampleRequest dhcpv4.MessageTypeRequest) sampleReply).ok = true
    ∧ (Handler4 sampleGlobals (sampleRequest dhcpv4.MessageTypeRequest) sampleReply).resp.MessageType
        = dhcpv4.MessageTypeAck
    ∧ (Handler4 sampleGlobals (sampleRequest dhcpv4.MessageTypeRequest) sampleReply).resp.Options
        dhcpv4.OptionSubnetMask = some [255, 255, 255, 0]
    ∧ (Handler4 sampleGlobals (sampleRequest dhcpv4.MessageTypeRequest) sampleReply).resp.Options
        dhcpv4.OptionServerIdentifier = some [10, 0, 0, 1]
    ∧ (Handler4 sampleGlobals (sampleRequest dhcpv4.MessageTypeRequest) sampleReply).resp.Options
        dhcpv4.OptionRouter = some [10, 0, 0, 1] :=
  have w := Handler4_request sampleGlobals (sampleRequest dhcpv4.MessageTypeRequest)
    sampleReply (by decide)
  ⟨by decide, w.1, w.2.1, w.2.2.2.1, w.2.2.2.2.1, w.2.2.2.2.2.1⟩

/-- Claim C4.  For every request whose message type is neither discover nor
request, `Handler4` returns the very reply it was given (so its message-type,
subnet-mask, server-identifier and router options are as on entry) and the
boolean true, and it logs the unhandled message type. -/
theorem Handler4_other (g : Globals) (req resp : dhcpv4.DHCPv4)
    (hd : req.MessageType ≠ dhcpv4.MessageTypeDiscover)
    (hr : req.MessageType ≠ dhcpv4.MessageTypeRequest) :
    (Handler4 g req resp).resp = resp
    ∧ (Handler4 g req resp).ok = true
    ∧ (Handler4 g req resp).resp.Options dhcpv4.OptionDHCPMessageType
        = resp.Options dhcpv4.OptionDHCPMessageType
    ∧ (Handler4 g req resp).resp.Options dhcpv4.OptionSubnetMask
        = resp.Options dhcpv4.OptionSubnetMask
    ∧ (Handler4 g req resp).resp.Options dhcpv4.OptionServerIdentifier
        = resp.Options dhcpv4.OptionServerIdentifier
    ∧ (Handler4 g req resp).resp.Options dhcpv4.OptionRouter
        = resp.Options dhcpv4.OptionRouter
    ∧ LogLine.UnhandledMessageType req.MessageType ∈ (Handler4 g req resp).log := by
  have e : (Handler4 g req resp).resp = resp := by simp [Handler4, hd, hr]
  refine ⟨e, by simp [Handler4, hd, hr], by rw [e], by rw [e], by rw [e], by rw [e], ?_⟩
  simp [Handler4, hd, hr]

/-- Witness of claim C4: a release message, and a request without any
message-type option, against a reply that already carries options. -/
theorem Handler4_other_witness :
    ((sampleRequest dhcpv4.MessageTypeRelease).MessageType ≠ dhcpv4.MessageTypeDiscover
      ∧ (sampleRequest dhcpv4.MessageTypeRelease).MessageType ≠ dhcpv4.MessageTypeRequest
      ∧ (Handler4 sampleGlobals (sampleRequest dhcpv4.MessageTypeRelease)
          (sampleRequest dhcpv4.MessageTypeNak)).resp = sampleRequest dhcpv4.MessageTypeNak
      ∧ (Handler4 sampleGlobals (sampleRequest dhcpv4.MessageTypeRelease)
          (sampleRequest dhcpv4.MessageTypeNak)).ok = true)
    ∧ (sampleRequestNoType.MessageType ≠ dhcpv4.MessageTypeDiscover
      ∧ sampleRequestNoType.MessageType ≠ dhcpv4.MessageTypeRequest
      ∧ (Handler4 sampleGlobals sampleRequestNoType sampleReply).resp = sampleReply
      ∧ (Handler4 sampleGlobals sampleRequestNoType sampleReply).ok = true) :=
  have w1 := Handler4_other sampleGlobals (sampleRequest dhcpv4.MessageTypeRelease)
    (sampleRequest dhcpv4.MessageTypeNak) (by decide) (by decide)
  have w2 := Handler4_other sampleGlobals sampleRequestNoType sampleReply
    (by decide) (by decide)
  ⟨⟨by decide, by decide, w1.1, w1.2.1⟩, ⟨by decide, by decide, w2.1, w2.2.1⟩⟩

/-! ## The setup function `setupServer` -/

theorem To4_IPv4 (a b c d : Byte) : net.To4 (net.IPv4 a b c d) = [a, b, c, d] := by
  simp [net.To4, net.IPv4, net.IPv4len, net.IPv6len, net.v4InV6Prefix, net.isZeros]

theorem To16_IPv4 (a b c d : Byte) : net.To16 (net.IPv4 a b c d) = net.IPv4 a b c d := by
  simp [net.To16, net.IPv4, net.IPv4len, net.IPv6len, net.v4InV6Prefix]

theorem IPv4_ne_nil (a b c d : Byte) : net.IPv4 a b c d ≠ [] := by
  simp [net.IPv4, net.v4InV6Prefix]

/-- Claim C5.  For every argument list of length at least 2 whose first element
parses as a CIDR with address `ip` and network mask `M`, where `M[0]` repeated
four times passes `checkValidNetmask`, and whose second element parses as the
IPv4 address `a.b.c.d`, `setupServer` returns a nil error (with both handlers)
and leaves `serverIP = ip`, `netmask = M[0].M[0].M[0].M[0]` and
`ClientSubnet = a.b.c.d`. -/
theorem setupServer_success (g : Globals) (a0 a1 : String) (rest : List String)
    (ip : net.IP) (network : net.IPNet) (m0 a b c d : Byte)
    (hc : net.ParseCIDR a0 = some (ip, network))
    (hm : network.Mask[0]? = some m0)
    (hv : checkValidNetmask (net.IPv4 m0 m0 m0 m0) = some true)
    (hs : net.ParseIP a1 = net.IPv4 a b c d) :
    setupServer false (a0 :: a1 :: rest) g
      = .returned { serverIP := ip, netmask := net.IPv4 m0 m0 m0 m0,
                    ClientSubnet := net.IPv4Mask a b c d }
          .Handler6 .Handler4 none [LogLine.LoadedPlugin] := by
  have hlen : ¬ (rest.length + 1 + 1 < 2) := by omega
  simp [setupServer, hc, hm, hv, hs, To4_IPv4, To16_IPv4, hlen, IPv4_ne_nil]

/-- Witness of claim C5: the arguments `10.0.0.1/24` and `255.255.255.0`. -/
theorem setupServer_success_witness :
    net.ParseCIDR "10.0.0.1/24"
        = some (net.IPv4 10 0 0 1, { IP := [10, 0, 0, 0], Mask := [255, 255, 255, 0] })
    ∧ checkValidNetmask (net.IPv4 255 255 255 255) = some true
    ∧ net.ParseIP "255.255.255.0" = net.IPv4 255 255 255 0
    ∧ setupServer false ["10.0.0.1/24", "255.255.255.0"] Globals.initial
      = .returned { serverIP := net.IPv4 10 0 0 1, netmask := net.IPv4 255 255 255 255,
                    ClientSubnet := net.IPv4Mask 255 255 255 0 }
          .Handler6 .Handler4 none [LogLine.LoadedPlugin] :=
  ⟨by decide, by decide, by decide,
    setupServer_success Globals.initial "10.0.0.1/24" "255.255.255.0" []
      (net.IPv4 10 0 0 1) { IP := [10, 0, 0, 0], Mask := [255, 255, 255, 0] }
      255 255 255 255 0 (by decide) (by decide) (by decide) (by decide)⟩

/-- Claim C7.  For every argument list of length at least 2 whose first element
fails to parse as a CIDR, `setupServer` returns the error whose text is
`plugins/server: expected an IPv4 address, got: ` followed by that element
verbatim, and leaves the package variables as they were. -/
theorem setupServer_invalid_cidr (g : Globals) (a0 a1 : String) (rest : List String)
    (hc : net.ParseCIDR a0 = none) :
    setupServer false (a0 :: a1 :: rest) g
      = .returned g .Handler6 .Handler4
          (some ("plugins/server: expected an IPv4 address, got: " ++ a0)) [] := by
  have hlen : ¬ (rest.length + 1 + 1 < 2) := by omega
  simp [setupServer, hc, hlen]

/-- Witness of claim C7: the first argument `999.999.999.999/24`. -/
theorem setupServer_invalid_cidr_witness :
    net.ParseCIDR "999.999.999.999/24" = none
    ∧ setupServer false ["999.999.999.999/24", "255.255.255.0"] Globals.initial
      = .returned Globals.initial .Handler6 .Handler4
          (some "plugins/server: expected an IPv4 address, got: 999.999.999.999/24") [] :=
  ⟨by decide,
    setupServer_invalid_cidr Globals.initial "999.999.999.999/24" "255.255.255.0" []
      (by decide)⟩

/-- Claim C9.  For every argument list of length at least 2 whose first element
parses as a CIDR with network mask `M`, where `M[0]` repeated four times fails
`checkValidNetmask`, `setupServer` returns the error whose text is
`plugins/server: netmask is not valid, got: ` followed by that element
verbatim; the outcome is the same whatever the other arguments are. -/
theorem setupServer_invalid_netmask (g : Globals) (a0 a1 : String) (rest : List String)
    (ip : net.IP) (network : net.IPNet) (m0 : Byte)
    (hc : net.ParseCIDR a0 = some (ip, network))
    (hm : network.Mask[0]? = some m0)
    (hv : checkValidNetmask (net.IPv4 m0 m0 m0 m0) = some false) :
    setupServer false (a0 :: a1 :: rest) g
      = .returned { serverIP := ip, netmask := net.IPv4 m0 m0 m0 m0,
                    ClientSubnet := g.ClientSubnet }
          .Handler6 .Handler4
          (some ("plugins/server: netmask is not valid, got: " ++ a0)) []
    ∧ ∀ (b1 : String) (others : List String),
        setupServer false (a0 :: b1 :: others) g
          = setupServer false (a0 :: a1 :: rest) g := by
  have key : ∀ (b1 : String) (others : List String),
      setupServer false (a0 :: b1 :: others) g
        = .returned { serverIP := ip, netmask := net.IPv4 m0 m0 m0 m0,
                      ClientSubnet := g.ClientSubnet }
            .Handler6 .Handler4
            (some ("plugins/server: netmask is not valid, got: " ++ a0)) [] := by
    intro b1 others
    have hlen : ¬ (others.length + 1 + 1 < 2) := by omega
    simp [setupServer, hc, hm, hv, hlen]
  exact ⟨key a1 rest, fun b1 others => by rw [key b1 others, key a1 rest]⟩

/-- Witness of claim C9: the first argument `10.0.0.1/7`, whose mask starts
with the octet `0xfe`. -/
theorem setupServer_invalid_netmask_witness :
    net.ParseCIDR "10.0.0.1/7"
        = some (net.IPv4 10 0 0 1, { IP := [10, 0, 0, 0], Mask := [254, 0, 0, 0] })
    ∧ checkValidNetmask (net.IPv4 254 254 254 254) = some false
    ∧ setupServer false ["10.0.0.1/7", "255.255.255.0"] Globals.initial
      = .returned { serverIP := net.IPv4 10 0 0 1, netmask := net.IPv4 254 254 254 254,
                    ClientSubnet := [] }
          .Handler6 .Handler4
          (some "plugins/server: netmask is not valid, got: 10.0.0.1/7") [] :=
  ⟨by decide, by decide,
    (setupServer_invalid_netmask Globals.initial "10.0.0.1/7" "255.255.255.0" []
      (net.IPv4 10 0 0 1) { IP := [10, 0, 0, 0], Mask := [254, 0, 0, 0] } 254
      (by decide) (by decide) (by decide)).1⟩

theorem word32_lt (a b c d : Byte) : word32 a b c d < 4294967296 := by
  have ha := a.isLt
  have hb := b.isLt
  have hc := c.isLt
  have hd := d.isLt
  simp only [word32]
  omega

theorem word32_eq_zero_iff (a b c d : Byte) :
    word32 a b c d = 0 ↔ (a = 0 ∧ b = 0 ∧ c = 0 ∧ d = 0) := by
  simp only [word32, Fin.ext_iff]
  constructor
  · intro h
    simp
    omega
  · rintro ⟨h1, h2, h3, h4⟩
    simp at h1 h2 h3 h4
    omega

/-- A 16-byte IPv4 value that passes `checkValidNetmask` is a contiguous mask
in the sense of the specification. -/
theorem ContiguousMask_of_check (a b c d : Byte)
    (h : checkValidNetmask (net.IPv4 a b c d) = some true) :
    ContiguousMask (net.IPv4 a b c d) := by
  rw [checkValidNetmask_IPv4, checkValidNetmask_four, Uint32_eq_sum] at h
  by_cases hz : a = 0 ∧ b = 0 ∧ c = 0 ∧ d = 0
  · rw [if_pos hz] at h
    exact absurd h (by decide)
  · rw [if_neg hz] at h
    have hw0 : word32 a b c d ≠ 0 := fun e => hz ((word32_eq_zero_iff a b c d).mp e)
    have ht : (add32 (not32 (word32 a b c d)) 1 &&& not32 (word32 a b c d) == 0) = true := by
      simpa [word32] using h
    exact ⟨a, b, c, d, To4_IPv4 a b c d, hw0,
      (netmask_word_test _ (word32_lt a b c d) hw0).mp ht⟩

theorem To4_length (ip : net.IP) : (net.To4 ip).length = 4 ∨ net.To4 ip = [] := by
  unfold net.To4
  split
  · left; assumption
  · split
    · rename_i h
      left
      simp [List.length_drop, h.1, net.IPv6len]
    · right; rfl

theorem eq_of_four_getElem (l : List Byte) (s0 s1 s2 s3 : Byte)
    (hl : l.length = 4 ∨ l = [])
    (e0 : l[0]? = some s0) (e1 : l[1]? = some s1) (e2 : l[2]? = some s2)
    (e3 : l[3]? = some s3) : l = [s0, s1, s2, s3] := by
  rcases hl with hl | hl
  · match l, hl with
    | [x0, x1, x2, x3], _ =>
      simp at e0 e1 e2 e3
      simp [e0, e1, e2, e3]
  · subst hl
    simp at e0

/-- The value `10.0.0.5` is not a contiguous mask. -/
theorem not_ContiguousMask_sample : ¬ ContiguousMask [10, 0, 0, 5] := by
  rintro ⟨a, b, c, d, h4, -, j, hj, hw⟩
  have e : net.To4 [10, 0, 0, 5] = [10, 0, 0, 5] := by decide
  rw [e] at h4
  simp only [List.cons.injEq, and_true] at h4
  obtain ⟨rfl, rfl, rfl, rfl⟩ := h4
  have hw2 : (167772165 : Nat) = 2 ^ 32 - 2 ^ j := hw
  interval_cases j <;> simp at hw2

/-- Claim C6, refuted as stated.  The arguments `10.0.0.1/24` and `10.0.0.5`
make `setupServer` return a nil error and leave `ClientSubnet = 10.0.0.5`,
which is not a mask whose 1-bits form a contiguous high-order run. -/
theorem setupServer_accepts_noncontiguous_subnet :
    setupServer false ["10.0.0.1/24", "10.0.0.5"] Globals.initial
      = .returned { serverIP := net.IPv4 10 0 0 1, netmask := net.IPv4 255 255 255 255,
                    ClientSubnet := [10, 0, 0, 5] }
          .Handler6 .Handler4 none [LogLine.LoadedPlugin]
    ∧ ¬ ContiguousMask [10, 0, 0, 5] :=
  ⟨by decide, not_ContiguousMask_sample⟩

/-- Claim C6, amended.  After every call of `setupServer` with `v6 = false`
that returns a nil error, `serverIP` is the address that `net.ParseCIDR`
returned for the first argument, `netmask` is a non-zero IPv4 mask whose 1-bits
form a contiguous high-order run, and `ClientSubnet` is the 4-byte form of the
address parsed from the second argument. -/
theorem setupServer_nil_error_state (g g1 : Globals) (args : List String)
    (h6 : Handler6Value) (h4 : Handler4Value) (log : List LogLine)
    (h : setupServer false args g = .returned g1 h6 h4 none log) :
    (∃ network, net.ParseCIDR (args.getD 0 "") = some (g1.serverIP, network))
    ∧ ContiguousMask g1.netmask
    ∧ g1.ClientSubnet.length = 4
    ∧ g1.ClientSubnet = net.To4 (net.ParseIP (args.getD 1 "")) := by
  unfold setupServer at h
  simp only [Bool.false_eq_true, if_false] at h
  split at h
  · simp at h
  · split at h
    · simp at h
    · rename_i ip network hc
      split at h
      · simp at h
      · rename_i m0 hm
        split at h
        · simp at h
        · simp at h
        · rename_i hv
          split at h
          · simp at h
          · split at h
            · rename_i s0 s1 s2 s3 e0 e1 e2 e3
              simp only [SetupOutcome.returned.injEq] at h
              obtain ⟨hg, -, -, -, -⟩ := h
              subst hg
              refine ⟨⟨network, hc⟩, ContiguousMask_of_check m0 m0 m0 m0 hv, rfl, ?_⟩
              exact (eq_of_four_getElem _ s0 s1 s2 s3 (To4_length _) e0 e1 e2 e3).symm
            · simp at h

/-- Witness of the amended claim C6: the arguments `10.0.0.1/24` and
`255.255.255.0`. -/
theorem setupServer_nil_error_state_witness :
    setupServer false ["10.0.0.1/24", "255.255.255.0"] Globals.initial
        = .returned sampleGlobals .Handler6 .Handler4 none [LogLine.LoadedPlugin]
    ∧ (∃ network, net.ParseCIDR "10.0.0.1/24" = some (net.IPv4 10 0 0 1, network))
    ∧ ContiguousMask (net.IPv4 255 255 255 255)
    ∧ [(255 : Byte), 255, 255, 0].length = 4
    ∧ [(255 : Byte), 255, 255, 0] = net.To4 (net.ParseIP "255.255.255.0") :=
  ⟨by decide,
    setupServer_nil_error_state Globals.initial sampleGlobals
      ["10.0.0.1/24", "255.255.255.0"] .Handler6 .Handler4 [LogLine.LoadedPlugin]
      (by decide)⟩

/-- The length of a mask built by `net.CIDRMask` for 32 or 128 bits. -/
theorem CIDRMask_length (ones iplen : Nat) (hl : iplen = 4 ∨ iplen = 16)
    (h : ones ≤ 8 * iplen) : (net.CIDRMask ones (8 * iplen)).length = iplen := by
  rcases hl with rfl | rfl
  · have : ¬ ones > 8 * 4 := by omega
    simp [net.CIDRMask, net.IPv4len, net.IPv6len, this]
  · have : ¬ ones > 8 * 16 := by omega
    simp [net.CIDRMask, net.IPv4len, net.IPv6len, this]

/-- The mask of a network parsed by `net.ParseCIDR` has 4 or 16 bytes, so its
first byte exists. -/
theorem ParseCIDR_mask_length (s : String) (ip : net.IP) (network : net.IPNet)
    (h : net.ParseCIDR s = some (ip, network)) :
    network.Mask.length = 4 ∨ network.Mask.length = 16 := by
  unfold net.ParseCIDR at h
  simp only at h
  split at h
  · simp at h
  · by_cases h4 : net.parseIPv4 (List.takeWhile (fun c => c != '/') s.toList) = []
    · simp only [h4, if_true] at h
      split at h
      · simp at h
      · rename_i hcond
        simp only [not_or, not_lt] at hcond
        simp only [Option.some.injEq, Prod.mk.injEq] at h
        obtain ⟨-, hn⟩ := h
        subst hn
        right
        exact CIDRMask_length _ net.IPv6len (Or.inr rfl) (by omega)
    · simp only [h4, if_false] at h
      split at h
      · simp at h
      · rename_i hcond
        simp only [not_or, not_lt] at hcond
        simp only [Option.some.injEq, Prod.mk.injEq] at h
        obtain ⟨-, hn⟩ := h
        subst hn
        left
        exact CIDRMask_length _ net.IPv4len (Or.inl rfl) (by omega)

/-- Claim C8, the failing input.  The second argument `not-an-ip` is refused
with an error, but the well-formed IPv6 address `2001:db8::1` passes the
`To16` guard, has no 4-byte form, and makes `setupServer` panic on `subnet[0]`
after `serverIP` and `netmask` have been overwritten. -/
theorem setupServer_ipv6_subnet_panics :
    setupServer false ["10.0.0.1/24", "not-an-ip"] Globals.initial
      = .returned { serverIP := net.IPv4 10 0 0 1, netmask := net.IPv4 255 255 255 255,
                    ClientSubnet := [] }
          .Handler6 .Handler4 (some "plugins/server: expected an IPv4 address, got:<nil>") []
    ∧ net.ParseIP "2001:db8::1"
      = [0x20, 0x01, 0x0d, 0xb8, 0, 0, 0, 0, 0, 0, 0, 0, 0, 0, 0, 1]
    ∧ net.To16 (net.ParseIP "2001:db8::1") ≠ []
    ∧ net.To4 (net.ParseIP "2001:db8::1") = []
    ∧ setupServer false ["10.0.0.1/24", "2001:db8::1"] Globals.initial
      = .panicked { serverIP := net.IPv4 10 0 0 1, netmask := net.IPv4 255 255 255 255,
                    ClientSubnet := [] } := by
  decide

/-- Claim C10, the failing input.  The IPv6 CIDR `2001:db8::1/32` is accepted:
`setupServer` returns a nil error and leaves in `serverIP` an address that has
no IPv4 form. -/
theorem setupServer_accepts_ipv6_cidr :
    setupServer false ["2001:db8::1/32", "255.255.255.0"] Globals.initial
      = .returned
          { serverIP := [0x20, 0x01, 0x0d, 0xb8, 0, 0, 0, 0, 0, 0, 0, 0, 0, 0, 0, 1],
            netmask := net.IPv4 255 255 255 255,
            ClientSubnet := net.IPv4Mask 255 255 255 0 }
          .Handler6 .Handler4 none [LogLine.LoadedPlugin]
    ∧ net.To4 [0x20, 0x01, 0x0d, 0xb8, 0, 0, 0, 0, 0, 0, 0, 0, 0, 0, 0, 1] = [] := by
  decide

/-! ## Too few arguments -/

/-- Claim C11.  For every argument list with fewer than 2 elements,
`setupServer` with `v6 = false` returns both handlers nil and a non-nil error,
`setupServerV4` returns a nil handler and the same error, and the package
variables are left as they were. -/
theorem setupServer_too_few_args (g : Globals) (args : List String)
    (h : args.length < 2) :
    setupServer false args g
      = .returned g .nil .nil
          (some "plugins/server: need a file name, server IP, netmask and a DNS server") []
    ∧ setupServerV4 args g
      = .returned g .nil
          (some "plugins/server: need a file name, server IP, netmask and a DNS server") [] := by
  have e : setupServer false args g
      = .returned g .nil .nil
          (some "plugins/server: need a file name, server IP, netmask and a DNS server") [] := by
    simp [setupServer, h]
  exact ⟨e, by simp [setupServerV4, e]⟩

/-- Witness of claim C11: the empty argument list, and a list of one argument,
against a configured state. -/
theorem setupServer_too_few_args_witness :
    (([] : List String).length < 2
      ∧ setupServer false [] sampleGlobals
        = .returned sampleGlobals .nil .nil
            (some "plugins/server: need a file name, server IP, netmask and a DNS server") []
      ∧ setupServerV4 [] sampleGlobals
        = .returned sampleGlobals .nil
            (some "plugins/server: need a file name, server IP, netmask and a DNS server") [])
    ∧ (["192.168.1.1/24"].length < 2
      ∧ setupServer false ["192.168.1.1/24"] sampleGlobals
        = .returned sampleGlobals .nil .nil
            (some "plugins/server: need a file name, server IP, netmask and a DNS server") []
      ∧ setupServerV4 ["192.168.1.1/24"] sampleGlobals
        = .returned sampleGlobals .nil
            (some "plugins/server: need a file name, server IP, netmask and a DNS server") []) :=
  ⟨⟨by decide, setupServer_too_few_args sampleGlobals [] (by decide)⟩,
    ⟨by decide, setupServer_too_few_args sampleGlobals ["192.168.1.1/24"] (by decide)⟩⟩

/-! ## More on the handlers -/

/-- Claim C14.  `Handler4` tolerates any operation code: replacing the
operation code of the request by any other one changes neither the returned
reply nor the returned boolean, which is true; the operation code only decides
whether the line `Not a BootRequest!` is logged. -/
theorem Handler4_any_opcode (g : Globals) (req resp : dhcpv4.DHCPv4)
    (op : dhcpv4.OpcodeType) :
    (Handler4 g { req with OpCode := op } resp).resp = (Handler4 g req resp).resp
    ∧ (Handler4 g { req with OpCode := op } resp).ok = true
    ∧ (Handler4 g req resp).ok = true
    ∧ ((Handler4 g req resp).log.filter (fun l => l != LogLine.NotABootRequest)
        = (Handler4 g { req with OpCode := op } resp).log.filter
            (fun l => l != LogLine.NotABootRequest)) := by
  have hmt : dhcpv4.DHCPv4.MessageType { req with OpCode := op } = req.MessageType := rfl
  have hok : ∀ r : dhcpv4.DHCPv4, (Handler4 g r resp).ok = true := by
    intro r
    unfold Handler4
    simp only
    split
    · rfl
    · split <;> rfl
  refine ⟨?_, hok _, hok _, ?_⟩
  · unfold Handler4
    simp only [hmt]
    split
    · rfl
    · split <;> rfl
  · unfold Handler4
    simp only [hmt]
    split
    · split <;> split <;> simp
    · split
      · split <;> split <;> simp
      · split <;> split <;> simp

/-- Claim C15.  For every type of IPv6 packet, every request and every reply,
`Handler6` returns the reply it was given and the boolean true. -/
theorem Handler6_returns_reply (DHCPv6 : Type) (req resp : DHCPv6) :
    Handler6 req resp = (resp, true)
    ∧ (Handler6 req resp).1 = resp
    ∧ (Handler6 req resp).2 = true :=
  ⟨rfl, rfl, rfl⟩

theorem World.UpdateOption_of_some (w : World) (p : Ptr) (opt : dhcpv4.DHCPOption)
    (d : dhcpv4.DHCPv4) (h : w.heap p = some d) :
    w.UpdateOption p opt = some (w.setPacket p (d.UpdateOption opt)) := by
  simp only [World.UpdateOption, h]

theorem World.setPacket_heap_self (w : World) (p : Ptr) (d : dhcpv4.DHCPv4) :
    (w.setPacket p d).heap p = some d := by
  simp [World.setPacket]

theorem World.setPacket_setPacket (w : World) (p : Ptr) (d e : dhcpv4.DHCPv4) :
    (w.setPacket p d).setPacket p e = w.setPacket p e := by
  simp only [World.setPacket, World.mk.injEq, true_and, and_true]
  funext q
  by_cases hq : q = p <;> simp [hq]

/-- The four updates of a branch of `Handler4S` on an allocated reply. -/
theorem fourUpdates_on_world (w : World) (resp : Ptr) (rp : dhcpv4.DHCPv4)
    (mt : dhcpv4.MessageType) (hp : w.heap resp = some rp) :
    ((w.UpdateOption resp (dhcpv4.OptMessageType mt)).bind fun w2 =>
      (w2.UpdateOption resp (dhcpv4.OptSubnetMask w2.globals.ClientSubnet)).bind fun w3 =>
      (w3.UpdateOption resp (dhcpv4.OptServerIdentifier w3.globals.serverIP)).bind fun w4 =>
      (w4.UpdateOption resp (dhcpv4.OptRouter [w4.globals.serverIP])).bind fun w5 =>
      some ((resp, true), w5))
    = some ((resp, true), w.setPacket resp (fourUpdates w.globals rp mt)) := by
  rw [World.UpdateOption_of_some w resp _ rp hp, Option.some_bind,
    World.UpdateOption_of_some _ resp _ _ (World.setPacket_heap_self _ _ _), Option.some_bind,
    World.setPacket_setPacket,
    World.UpdateOption_of_some _ resp _ _ (World.setPacket_heap_self _ _ _), Option.some_bind,
    World.setPacket_setPacket,
    World.UpdateOption_of_some _ resp _ _ (World.setPacket_heap_self _ _ _), Option.some_bind,
    World.setPacket_setPacket]
  rfl

/-- What `Handler4` yields, written with `fourUpdates`. -/
theorem Handler4_cases (g : Globals) (rq rp : dhcpv4.DHCPv4) :
    (rq.MessageType = dhcpv4.MessageTypeDiscover →
      (Handler4 g rq rp).resp = fourUpdates g rp dhcpv4.MessageTypeOffer
      ∧ (Handler4 g rq rp).log
        = if rq.OpCode ≠ dhcpv4.OpcodeBootRequest then [LogLine.NotABootRequest] else [])
    ∧ (rq.MessageType ≠ dhcpv4.MessageTypeDiscover →
      rq.MessageType = dhcpv4.MessageTypeRequest →
      (Handler4 g rq rp).resp = fourUpdates g rp dhcpv4.MessageTypeAck
      ∧ (Handler4 g rq rp).log
        = if rq.OpCode ≠ dhcpv4.OpcodeBootRequest then [LogLine.NotABootRequest] else [])
    ∧ (rq.MessageType ≠ dhcpv4.MessageTypeDiscover →
      rq.MessageType ≠ dhcpv4.MessageTypeRequest →
      (Handler4 g rq rp).resp = rp
      ∧ (Handler4 g rq rp).log
        = (if rq.OpCode ≠ dhcpv4.OpcodeBootRequest then [LogLine.NotABootRequest] else [])
          ++ [LogLine.UnhandledMessageType rq.MessageType]) := by
  refine ⟨fun h => ?_, fun h1 h2 => ?_, fun h1 h2 => ?_⟩
  · simp only [Handler4, if_pos h, fourUpdates, and_self]
  · simp only [Handler4, if_neg h1, if_pos h2, fourUpdates, and_self]
  · simp only [Handler4, if_neg h1, if_neg h2, and_self]

/-- A call of `Handler4S` with both pointers allocated: it returns the reply
pointer and true, leaves the package variables alone, stores at the reply
pointer the reply that `Handler4` computes from the two packets and the package
variables, and appends the lines `Handler4` logs. -/
theorem Handler4S_eq (w : World) (req resp : Ptr) (rq rp : dhcpv4.DHCPv4)
    (hq : w.heap req = some rq) (hp : w.heap resp = some rp) :
    Handler4S req resp w
      = some ((resp, true),
          { globals := w.globals,
            heap := fun q => if q = resp then some (Handler4 w.globals rq rp).resp
              else w.heap q,
            log := w.log ++ (Handler4 w.globals rq rp).log }) := by
  obtain ⟨hD, hR, hO⟩ := Handler4_cases w.globals rq rp
  unfold Handler4S
  simp only [hq]
  by_cases hop : rq.OpCode ≠ dhcpv4.OpcodeBootRequest
  · simp only [if_pos hop]
    have hp1 : (w.Printf LogLine.NotABootRequest).heap resp = some rp := hp
    by_cases h1 : rq.MessageType = dhcpv4.MessageTypeDiscover
    · rw [if_pos h1, fourUpdates_on_world _ resp rp _ hp1, (hD h1).1, (hD h1).2, if_pos hop]
      rfl
    · rw [if_neg h1]
      by_cases h2 : rq.MessageType = dhcpv4.MessageTypeRequest
      · rw [if_pos h2, fourUpdates_on_world _ resp rp _ hp1, (hR h1 h2).1, (hR h1 h2).2,
          if_pos hop]
        rfl
      · rw [if_neg h2, (hO h1 h2).1, (hO h1 h2).2, if_pos hop]
        simp only [World.Printf, List.append_assoc, Option.some.injEq, Prod.mk.injEq,
          World.mk.injEq, true_and, and_true]
        funext q
        by_cases hqr : q = resp
        · rw [if_pos hqr, hqr, hp]
        · rw [if_neg hqr]
  · simp only [if_neg hop]
    by_cases h1 : rq.MessageType = dhcpv4.MessageTypeDiscover
    · rw [if_pos h1, fourUpdates_on_world _ resp rp _ hp, (hD h1).1, (hD h1).2, if_neg hop]
      simp [World.setPacket]
    · rw [if_neg h1]
      by_cases h2 : rq.MessageType = dhcpv4.MessageTypeRequest
      · rw [if_pos h2, fourUpdates_on_world _ resp rp _ hp, (hR h1 h2).1, (hR h1 h2).2,
          if_neg hop]
        simp [World.setPacket]
      · rw [if_neg h2, (hO h1 h2).1, (hO h1 h2).2, if_neg hop]
        simp only [World.Printf, List.nil_append, Option.some.injEq, Prod.mk.injEq,
          World.mk.injEq, true_and, and_true]
        funext q
        by_cases hqr : q = resp
        · rw [if_pos hqr, hqr, hp]
        · rw [if_neg hqr]

/-- Whenever `Handler4S` returns, with the pointers allocated or not, it
returns the reply pointer and true and the package variables are as before. -/
theorem Handler4S_globals (w w1 : World) (req resp : Ptr) (r : Ptr × Bool)
    (h : Handler4S req resp w = some (r, w1)) :
    r = (resp, true) ∧ w1.globals = w.globals := by
  cases hq : w.heap req with
  | none =>
    unfold Handler4S at h
    simp only [hq] at h
    exact absurd h (by simp)
  | some rq =>
    cases hp : w.heap resp with
    | some rp =>
      rw [Handler4S_eq w req resp rq rp hq hp] at h
      simp only [Option.some.injEq, Prod.mk.injEq] at h
      obtain ⟨hr, hw⟩ := h
      subst hw
      exact ⟨hr.symm, rfl⟩
    | none =>
      have hu : ∀ (v : World) (opt : dhcpv4.DHCPOption), v.heap resp = none →
          v.UpdateOption resp opt = none := by
        intro v opt hv
        simp only [World.UpdateOption, hv]
      have hp1 : (if rq.OpCode ≠ dhcpv4.OpcodeBootRequest
          then w.Printf LogLine.NotABootRequest else w).heap resp = none := by
        split
        · exact hp
        · exact hp
      have hg1 : (if rq.OpCode ≠ dhcpv4.OpcodeBootRequest
          then w.Printf LogLine.NotABootRequest else w).globals = w.globals := by
        split
        · rfl
        · rfl
      unfold Handler4S at h
      simp only [hq] at h
      by_cases h1 : rq.MessageType = dhcpv4.MessageTypeDiscover
      · rw [if_pos h1, hu _ _ hp1] at h
        exact absurd h (by simp)
      · rw [if_neg h1] at h
        by_cases h2 : rq.MessageType = dhcpv4.MessageTypeRequest
        · rw [if_pos h2, hu _ _ hp1] at h
          exact absurd h (by simp)
        · rw [if_neg h2] at h
          simp only [Option.some.injEq, Prod.mk.injEq] at h
          obtain ⟨hr, hw⟩ := h
          subst hw
          exact ⟨hr.symm, hg1⟩

/-- A run of calls whose reply pointers are pairwise distinct and are nobody's
request pointer, all pointers being allocated: the run returns, every call
returns its reply pointer and true, the package variables are as before, the
packets outside the reply pointers are as before, and each reply pointer holds
the reply that `Handler4` computes from the packets the call found at the
start and from the package variables. -/
theorem runCalls_spec (calls : List (Ptr × Ptr)) :
    ∀ w : World, (calls.map Prod.snd).Nodup →
      (∀ c ∈ calls, ∀ d ∈ calls, c.1 ≠ d.2) →
      (∀ c ∈ calls, (w.heap c.1).isSome = true ∧ (w.heap c.2).isSome = true) →
      ∃ wf, runCalls calls w = some (calls.map (fun c => (c.2, true)), wf)
        ∧ wf.globals = w.globals
        ∧ (∀ q, q ∉ calls.map Prod.snd → wf.heap q = w.heap q)
        ∧ (∀ c ∈ calls, ∀ rq rp, w.heap c.1 = some rq → w.heap c.2 = some rp →
            wf.heap c.2 = some (Handler4 w.globals rq rp).resp) := by
  induction calls with
  | nil =>
    intro w _ _ _
    exact ⟨w, rfl, rfl, fun _ _ => rfl, fun c hc => absurd hc (List.not_mem_nil c)⟩
  | cons hd rest ih =>
    intro w hnd hdisj halloc
    obtain ⟨req, resp⟩ := hd
    simp only [List.map_cons, List.nodup_cons] at hnd
    obtain ⟨hresp, hnd'⟩ := hnd
    obtain ⟨hq0, hp0⟩ := halloc (req, resp) (List.mem_cons_self _ _)
    obtain ⟨rq, hq⟩ := Option.isSome_iff_exists.mp hq0
    obtain ⟨rp, hp⟩ := Option.isSome_iff_exists.mp hp0
    simp only at hq hp
    have hcall := Handler4S_eq w req resp rq rp hq hp
    have hne1 : ∀ c ∈ rest, c.1 ≠ resp := fun c hc =>
      hdisj c (List.mem_cons_of_mem _ hc) (req, resp) (List.mem_cons_self _ _)
    have hne2 : ∀ c ∈ rest, c.2 ≠ resp := fun c hc e =>
      hresp (e ▸ List.mem_map_of_mem Prod.snd hc)
    obtain ⟨wf, hrun, hglob, hout, hin⟩ := ih
      { globals := w.globals,
        heap := fun q => if q = resp then some (Handler4 w.globals rq rp).resp else w.heap q,
        log := w.log ++ (Handler4 w.globals rq rp).log }
      hnd'
      (fun c hc d hd => hdisj c (List.mem_cons_of_mem _ hc) d (List.mem_cons_of_mem _ hd))
      (fun c hc => by
        have h := halloc c (List.mem_cons_of_mem _ hc)
        simp only [if_neg (hne1 c hc), if_neg (hne2 c hc)]
        exact h)
    refine ⟨wf, ?_, hglob, ?_, ?_⟩
    · simp only [runCalls, hcall, Option.some_bind, hrun, List.map_cons]
    · intro q hqn
      simp only [List.map_cons, List.mem_cons, not_or] at hqn
      rw [hout q hqn.2]
      simp only [if_neg hqn.1]
    · intro c hc rq1 rp1 hq1 hp1
      rcases List.mem_cons.mp hc with hc | hc
      · subst hc
        simp only at hq1 hp1 ⊢
        rw [hq] at hq1
        rw [hp] at hp1
        simp only [Option.some.injEq] at hq1 hp1
        subst hq1 hp1
        rw [hout resp hresp]
        simp only [if_pos]
      · have h := hin c hc rq1 rp1
          (by simp only [if_neg (hne1 c hc)]; exact hq1)
          (by simp only [if_neg (hne2 c hc)]; exact hp1)
        exact h

/-- Claim C16.  `Handler4` performs no mutation of shared state.  On the memory
of the process: whenever a call returns, `serverIP`, `netmask` and
`ClientSubnet` are as before the call; with both pointers allocated the call
returns the reply pointer and true, changes no packet but the reply, and
leaves there the reply computed from the request, the given reply and the
package variables alone.  Hence for a sequence of calls, each on its own reply
(reply pointers pairwise distinct and nobody's request), running the calls in
any other order returns the same value for each call, and ends with the same
package variables and the same packet at every pointer, each reply being the
one computed from what the call found at the start. -/
theorem Handler4_no_shared_mutation (w : World) (calls reordered : List (Ptr × Ptr))
    (hperm : calls.Perm reordered)
    (hnodup : (calls.map Prod.snd).Nodup)
    (hdisj : ∀ c ∈ calls, ∀ d ∈ calls, c.1 ≠ d.2)
    (halloc : ∀ c ∈ calls, (w.heap c.1).isSome = true ∧ (w.heap c.2).isSome = true) :
    (∀ (req resp : Ptr) (r : Ptr × Bool) (w1 : World),
        Handler4S req resp w = some (r, w1) →
        r = (resp, true) ∧ w1.globals.serverIP = w.globals.serverIP
        ∧ w1.globals.netmask = w.globals.netmask
        ∧ w1.globals.ClientSubnet = w.globals.ClientSubnet)
    ∧ (∀ (req resp : Ptr) (rq rp : dhcpv4.DHCPv4),
        w.heap req = some rq → w.heap resp = some rp →
        ∃ w1, Handler4S req resp w = some ((resp, true), w1)
          ∧ w1.globals = w.globals
          ∧ w1.heap resp = some (Handler4 w.globals rq rp).resp
          ∧ ∀ p, p ≠ resp → w1.heap p = w.heap p)
    ∧ ∃ w1 w2,
        runCalls calls w = some (calls.map (fun c => (c.2, true)), w1)
        ∧ runCalls reordered w = some (reordered.map (fun c => (c.2, true)), w2)
        ∧ w1.globals = w.globals ∧ w2.globals = w.globals
        ∧ (∀ p, w1.heap p = w2.heap p)
        ∧ (∀ c ∈ calls, ∀ rq rp, w.heap c.1 = some rq → w.heap c.2 = some rp →
            w1.heap c.2 = some (Handler4 w.globals rq rp).resp
            ∧ w2.heap c.2 = some (Handler4 w.globals rq rp).resp) := by
  refine ⟨?_, ?_, ?_⟩
  · intro req resp r w1 h
    obtain ⟨hr, hg⟩ := Handler4S_globals w w1 req resp r h
    exact ⟨hr, by rw [hg], by rw [hg], by rw [hg]⟩
  · intro req resp rq rp hq hp
    refine ⟨_, Handler4S_eq w req resp rq rp hq hp, rfl, ?_, ?_⟩
    · simp only [if_pos]
    · intro p hne
      simp only [if_neg hne]
  · obtain ⟨w1, hrun1, hg1, hout1, hin1⟩ := runCalls_spec calls w hnodup hdisj halloc
    obtain ⟨w2, hrun2, hg2, hout2, hin2⟩ := runCalls_spec reordered w
      ((hperm.map Prod.snd).nodup_iff.mp hnodup)
      (fun c hc d hd => hdisj c (hperm.mem_iff.mpr hc) d (hperm.mem_iff.mpr hd))
      (fun c hc => halloc c (hperm.mem_iff.mpr hc))
    refine ⟨w1, w2, hrun1, hrun2, hg1, hg2, ?_, ?_⟩
    · intro p
      by_cases hp : p ∈ calls.map Prod.snd
      · obtain ⟨c, hc, rfl⟩ := List.mem_map.mp hp
        obtain ⟨hq0, hp0⟩ := halloc c hc
        obtain ⟨rq, hq⟩ := Option.isSome_iff_exists.mp hq0
        obtain ⟨rp, hrp⟩ := Option.isSome_iff_exists.mp hp0
        rw [hin1 c hc rq rp hq hrp, hin2 c (hperm.mem_iff.mp hc) rq rp hq hrp]
      · have hp2 : p ∉ reordered.map Prod.snd := fun h =>
          hp ((hperm.map Prod.snd).mem_iff.mpr h)
        rw [hout1 p hp, hout2 p hp2]
    · intro c hc rq rp hq hrp
      exact ⟨hin1 c hc rq rp hq hrp, hin2 c (hperm.mem_iff.mp hc) rq rp hq hrp⟩

/-- Witness of claim C16: on `sampleWorld`, the discover call on pointers 1, 3
and the release call on pointers 2, 4, run in the two possible orders. -/
theorem Handler4_no_shared_mutation_witness :
    ([(1, 3), (2, 4)] : List (Ptr × Ptr)).Perm [(2, 4), (1, 3)]
    ∧ (([(1, 3), (2, 4)] : List (Ptr × Ptr)).map Prod.snd).Nodup
    ∧ (∀ c ∈ ([(1, 3), (2, 4)] : List (Ptr × Ptr)),
        ∀ d ∈ ([(1, 3), (2, 4)] : List (Ptr × Ptr)), c.1 ≠ d.2)
    ∧ (∀ c ∈ ([(1, 3), (2, 4)] : List (Ptr × Ptr)),
        (sampleWorld.heap c.1).isSome = true ∧ (sampleWorld.heap c.2).isSome = true)
    ∧ ∃ w1 w2,
        runCalls [(1, 3), (2, 4)] sampleWorld = some ([(3, true), (4, true)], w1)
        ∧ runCalls [(2, 4), (1, 3)] sampleWorld = some ([(4, true), (3, true)], w2)
        ∧ w1.globals = sampleWorld.globals ∧ w2.globals = sampleWorld.globals
        ∧ (∀ p, w1.heap p = w2.heap p) :=
  ⟨List.Perm.swap _ _ _, by decide, by decide, by decide,
    match (Handler4_no_shared_mutation sampleWorld [(1, 3), (2, 4)] [(2, 4), (1, 3)]
      (List.Perm.swap _ _ _) (by decide) (by decide) (by decide)).2.2 with
    | ⟨w1, w2, h1, h2, h3, h4, h5, _⟩ => ⟨w1, w2, h1, h2, h3, h4, h5⟩⟩

theorem fourUpdates_options (g : Globals) (resp : dhcpv4.DHCPv4) (mt : dhcpv4.MessageType)
    (code : Byte) (h1 : code ≠ dhcpv4.OptionDHCPMessageType)
    (h2 : code ≠ dhcpv4.OptionSubnetMask) (h3 : code ≠ dhcpv4.OptionServerIdentifier)
    (h4 : code ≠ dhcpv4.OptionRouter) :
    (fourUpdates g resp mt).Options code = resp.Options code := by
  simp only [fourUpdates, dhcpv4.DHCPv4.UpdateOption, dhcpv4.Options.Update,
    dhcpv4.OptMessageType, dhcpv4.OptSubnetMask, dhcpv4.OptServerIdentifier, dhcpv4.OptRouter,
    if_neg h1, if_neg h2, if_neg h3, if_neg h4]

theorem Handler4_resp_fourUpdates (g : Globals) (req resp : dhcpv4.DHCPv4)
    (h : req.MessageType = dhcpv4.MessageTypeDiscover
      ∨ req.MessageType = dhcpv4.MessageTypeRequest) :
    ∃ mt : dhcpv4.MessageType, (Handler4 g req resp).resp = fourUpdates g resp mt := by
  rcases h with h | h
  · exact ⟨dhcpv4.MessageTypeOffer, by simp only [Handler4, if_pos h, fourUpdates]⟩
  · have hne : req.MessageType ≠ dhcpv4.MessageTypeDiscover := by rw [h]; decide
    exact ⟨dhcpv4.MessageTypeAck, by simp only [Handler4, if_neg hne, if_pos h, fourUpdates]⟩

theorem fourUpdates_header (g : Globals) (resp : dhcpv4.DHCPv4) (mt : dhcpv4.MessageType) :
    fourUpdates g resp mt = { resp with Options := (fourUpdates g resp mt).Options }
    ∧ (fourUpdates g resp mt).OpCode = resp.OpCode
    ∧ (fourUpdates g resp mt).HWType = resp.HWType
    ∧ (fourUpdates g resp mt).HopCount = resp.HopCount
    ∧ (fourUpdates g resp mt).TransactionID = resp.TransactionID
    ∧ (fourUpdates g resp mt).NumSeconds = resp.NumSeconds
    ∧ (fourUpdates g resp mt).Flags = resp.Flags
    ∧ (fourUpdates g resp mt).ClientIPAddr = resp.ClientIPAddr
    ∧ (fourUpdates g resp mt).YourIPAddr = resp.YourIPAddr
    ∧ (fourUpdates g resp mt).ServerIPAddr = resp.ServerIPAddr
    ∧ (fourUpdates g resp mt).GatewayIPAddr = resp.GatewayIPAddr
    ∧ (fourUpdates g resp mt).ClientHWAddr = resp.ClientHWAddr
    ∧ (fourUpdates g resp mt).ServerHostName = resp.ServerHostName
    ∧ (fourUpdates g resp mt).BootFileName = resp.BootFileName := by
  simp only [fourUpdates, dhcpv4.DHCPv4.UpdateOption, and_self]

/-- Claim C19.  For every request of type discover or request and every reply,
the reply returned by `Handler4` is the given reply with new options: every
option other than message-type, subnet-mask, server-identifier and router, and
every header field, has the value it had on entry. -/
theorem Handler4_frame (g : Globals) (req resp : dhcpv4.DHCPv4)
    (h : req.MessageType = dhcpv4.MessageTypeDiscover
      ∨ req.MessageType = dhcpv4.MessageTypeRequest) :
    (∀ code : Byte, code ≠ dhcpv4.OptionDHCPMessageType → code ≠ dhcpv4.OptionSubnetMask →
        code ≠ dhcpv4.OptionServerIdentifier → code ≠ dhcpv4.OptionRouter →
        (Handler4 g req resp).resp.Options code = resp.Options code)
    ∧ (Handler4 g req resp).resp = { resp with Options := (Handler4 g req resp).resp.Options }
    ∧ (Handler4 g req resp).resp.OpCode = resp.OpCode
    ∧ (Handler4 g req resp).resp.HWType = resp.HWType
    ∧ (Handler4 g req resp).resp.HopCount = resp.HopCount
    ∧ (Handler4 g req resp).resp.TransactionID = resp.TransactionID
    ∧ (Handler4 g req resp).resp.NumSeconds = resp.NumSeconds
    ∧ (Handler4 g req resp).resp.Flags = resp.Flags
    ∧ (Handler4 g req resp).resp.ClientIPAddr = resp.ClientIPAddr
    ∧ (Handler4 g req resp).resp.YourIPAddr = resp.YourIPAddr
    ∧ (Handler4 g req resp).resp.ServerIPAddr = resp.ServerIPAddr
    ∧ (Handler4 g req resp).resp.GatewayIPAddr = resp.GatewayIPAddr
    ∧ (Handler4 g req resp).resp.ClientHWAddr = resp.ClientHWAddr
    ∧ (Handler4 g req resp).resp.ServerHostName = resp.ServerHostName
    ∧ (Handler4 g req resp).resp.BootFileName = resp.BootFileName := by
  obtain ⟨mt, e⟩ := Handler4_resp_fourUpdates g req resp h
  rw [e]
  exact ⟨fun code h1 h2 h3 h4 => fourUpdates_options g resp mt code h1 h2 h3 h4,
    fourUpdates_header g resp mt⟩

/-- Witness of claim C19: a discover request against a reply that carries the
options 53 and 12; option 12 and the operation code are left alone. -/
theorem Handler4_frame_witness :
    ((sampleRequest dhcpv4.MessageTypeDiscover).MessageType = dhcpv4.MessageTypeDiscover
      ∨ (sampleRequest dhcpv4.MessageTypeDiscover).MessageType = dhcpv4.MessageTypeRequest)
    ∧ (Handler4 sampleGlobals (sampleRequest dhcpv4.MessageTypeDiscover)
        (sampleReply.UpdateOption { Code := 12, Value := .IPMask [104, 111, 115, 116] })).resp.Options
          12 = some [104, 111, 115, 116]
    ∧ (Handler4 sampleGlobals (sampleRequest dhcpv4.MessageTypeDiscover)
        (sampleReply.UpdateOption { Code := 12, Value := .IPMask [104, 111, 115, 116] })).resp.OpCode
          = dhcpv4.OpcodeBootReply :=
  have w := Handler4_frame sampleGlobals (sampleRequest dhcpv4.MessageTypeDiscover)
    (sampleReply.UpdateOption { Code := 12, Value := .IPMask [104, 111, 115, 116] })
    (Or.inl (by decide))
  ⟨Or.inl (by decide), w.1 12 (by decide) (by decide) (by decide) (by decide), w.2.2.1⟩

/-! ## Case analysis of `setupServer` -/

/-- What a nil error of `setupServer` with `v6 = false` tells about the
arguments and about the package variables left behind. -/
theorem setupServer_nil_error_inv (g g1 : Globals) (args : List String)
    (h6 : Handler6Value) (h4 : Handler4Value) (log : List LogLine)
    (h : setupServer false args g = .returned g1 h6 h4 none log) :
    ¬ args.length < 2
    ∧ ∃ ip network m0 s0 s1 s2 s3,
        net.ParseCIDR (args.getD 0 "") = some (ip, network)
        ∧ network.Mask[0]? = some m0
        ∧ checkValidNetmask (net.IPv4 m0 m0 m0 m0) = some true
        ∧ net.To16 (net.ParseIP (args.getD 1 "")) ≠ []
        ∧ net.To4 (net.ParseIP (args.getD 1 "")) = [s0, s1, s2, s3]
        ∧ g1 = { serverIP := ip, netmask := net.IPv4 m0 m0 m0 m0,
                 ClientSubnet := net.IPv4Mask s0 s1 s2 s3 }
        ∧ h6 = .Handler6 ∧ h4 = .Handler4 ∧ log = [LogLine.LoadedPlugin] := by
  unfold setupServer at h
  simp only [Bool.false_eq_true, if_false] at h
  split at h
  · simp at h
  · rename_i hlen
    refine ⟨hlen, ?_⟩
    split at h
    · simp at h
    · rename_i ip network hc
      split at h
      · simp at h
      · rename_i m0 hm
        split at h
        · simp at h
        · simp at h
        · rename_i hv
          split at h
          · simp at h
          · rename_i h16
            split at h
            · rename_i s0 s1 s2 s3 e0 e1 e2 e3
              simp only [SetupOutcome.returned.injEq] at h
              obtain ⟨hg, hh6, hh4, -, hlog⟩ := h
              exact ⟨ip, network, m0, s0, s1, s2, s3, hc, hm, hv, h16,
                eq_of_four_getElem _ s0 s1 s2 s3 (To4_length _) e0 e1 e2 e3,
                hg.symm, hh6.symm, hh4.symm, hlog.symm⟩
            · simp at h

/-- The converse: arguments that pass every test of `setupServer` give a nil
error, whatever the package variables were. -/
theorem setupServer_of_valid (g : Globals) (args : List String)
    (ip : net.IP) (network : net.IPNet) (m0 s0 s1 s2 s3 : Byte)
    (hlen : ¬ args.length < 2)
    (hc : net.ParseCIDR (args.getD 0 "") = some (ip, network))
    (hm : network.Mask[0]? = some m0)
    (hv : checkValidNetmask (net.IPv4 m0 m0 m0 m0) = some true)
    (h16 : net.To16 (net.ParseIP (args.getD 1 "")) ≠ [])
    (h4 : net.To4 (net.ParseIP (args.getD 1 "")) = [s0, s1, s2, s3]) :
    setupServer false args g
      = .returned { serverIP := ip, netmask := net.IPv4 m0 m0 m0 m0,
                    ClientSubnet := net.IPv4Mask s0 s1 s2 s3 }
          .Handler6 .Handler4 none [LogLine.LoadedPlugin] := by
  unfold setupServer
  simp only [Bool.false_eq_true, if_false, if_neg hlen, hc, hm, hv, if_neg h16, h4]
  rfl

/-- Claim C13.  When `setupServer` returns a nil error for an argument list,
a second call with the same arguments, started from the package variables the
first call left, returns a nil error again and leaves the same package
variables; for `v6 = false` the call succeeds with that same result from every
prior state of the package variables. -/
theorem setupServer_idempotent (v6 : Bool) (g g1 : Globals) (args : List String)
    (h6 : Handler6Value) (h4 : Handler4Value) (log : List LogLine)
    (h : setupServer v6 args g = .returned g1 h6 h4 none log) :
    setupServer v6 args g1 = .returned g1 h6 h4 none log
    ∧ (v6 = false → ∀ prior : Globals,
        setupServer false args prior = .returned g1 h6 h4 none log) := by
  cases v6 with
  | true =>
    have e : ∀ x : Globals, setupServer true args x = .returned x .Handler6 .Handler4 none [] := by
      intro x; simp [setupServer]
    rw [e g] at h
    simp only [SetupOutcome.returned.injEq] at h
    obtain ⟨hg, hh6, hh4, -, hlog⟩ := h
    subst hg hh6 hh4 hlog
    exact ⟨e g, fun hv => absurd hv (by decide)⟩
  | false =>
    obtain ⟨hlen, ip, network, m0, s0, s1, s2, s3, hc, hm, hv, h16, h4e, hg, hh6, hh4, hlog⟩ :=
      setupServer_nil_error_inv g g1 args h6 h4 log h
    have key : ∀ prior : Globals,
        setupServer false args prior = .returned g1 h6 h4 none log := by
      intro prior
      rw [hg, hh6, hh4, hlog]
      exact setupServer_of_valid prior args ip network m0 s0 s1 s2 s3 hlen hc hm hv h16 h4e
    exact ⟨key g1, fun _ => key⟩

/-- Witness of claim C13: the arguments `10.0.0.1/24` and `255.255.255.0`,
first from the unset package variables, then again. -/
theorem setupServer_idempotent_witness :
    setupServer false ["10.0.0.1/24", "255.255.255.0"] Globals.initial
        = .returned sampleGlobals .Handler6 .Handler4 none [LogLine.LoadedPlugin]
    ∧ setupServer false ["10.0.0.1/24", "255.255.255.0"] sampleGlobals
        = .returned sampleGlobals .Handler6 .Handler4 none [LogLine.LoadedPlugin] :=
  ⟨by decide,
    (setupServer_idempotent false Globals.initial sampleGlobals
      ["10.0.0.1/24", "255.255.255.0"] .Handler6 .Handler4 [LogLine.LoadedPlugin]
      (by decide)).1⟩

/-! ## The first octet of the mask decides the netmask check -/

set_option maxRecDepth 100000 in
theorem checkValidNetmask_replicated (b : Byte) :
    checkValidNetmask (net.IPv4 b b b b) = some (decide (b = 255)) := by
  revert b
  decide

theorem netmask_msg_ne (a x : String) :
    "plugins/server: netmask is not valid, got: " ++ a
      ≠ "plugins/server: expected an IPv4 address, got:" ++ x := by
  intro h
  have h2 := congrArg String.data h
  simp [String.data_append] at h2

theorem CIDRMask_head (n bits : Nat) (hb : bits = 32 ∨ bits = 128) (hn : n ≤ bits) :
    (net.CIDRMask n bits)[0]?
      = some (if n ≥ 8 then (0xff : Byte) else byte (255 - (255 >>> n))) := by
  rcases hb with rfl | rfl
  · have : ¬ n > 32 := by omega
    simp [net.CIDRMask, net.IPv4len, net.IPv6len, this, List.range_succ_eq_map]
  · have : ¬ n > 128 := by omega
    simp [net.CIDRMask, net.IPv4len, net.IPv6len, this, List.range_succ_eq_map]

theorem CIDRMask_ne_nil_inv (n bits : Nat) (h : net.CIDRMask n bits ≠ []) :
    (bits = 32 ∨ bits = 128) ∧ n ≤ bits := by
  unfold net.CIDRMask at h
  simp only [net.IPv4len, net.IPv6len] at h
  split at h
  · exact absurd rfl h
  · rename_i hb
    split at h
    · exact absurd rfl h
    · rename_i hn
      constructor
      · by_contra hc
        exact hb ⟨fun e => hc (Or.inl (by omega)), fun e => hc (Or.inr (by omega))⟩
      · omega

theorem short_prefix_octet_ne (n : Nat) (h : n < 8) :
    byte (255 - (255 >>> n)) ≠ (255 : Byte) := by
  interval_cases n <;> decide

/-- The first octet of a 32-bit or 128-bit CIDR mask is 255 exactly when the
prefix length is at least 8. -/
theorem CIDRMask_head_eq_255_iff (n bits : Nat) (m0 : Byte)
    (hne : net.CIDRMask n bits ≠ []) (hm : (net.CIDRMask n bits)[0]? = some m0) :
    m0 = 255 ↔ 8 ≤ n := by
  obtain ⟨hb, hn⟩ := CIDRMask_ne_nil_inv n bits hne
  rw [CIDRMask_head n bits hb hn] at hm
  simp only [Option.some.injEq] at hm
  by_cases h8 : n ≥ 8
  · rw [if_pos h8] at hm
    exact ⟨fun _ => h8, fun _ => hm.symm⟩
  · rw [if_neg h8] at hm
    constructor
    · intro e
      exact absurd (hm.trans e) (short_prefix_octet_ne n (by omega))
    · intro h; exact absurd h h8

/-- The outcome of `setupServer` on two or more arguments once the CIDR has
been parsed and the first octet of its mask is not 255. -/
theorem setupServer_rejects_octet (g : Globals) (a0 a1 : String) (rest : List String)
    (ip : net.IP) (network : net.IPNet) (m0 : Byte)
    (hc : net.ParseCIDR a0 = some (ip, network))
    (hm : network.Mask[0]? = some m0) (hne : m0 ≠ 255) :
    setupServer false (a0 :: a1 :: rest) g
      = .returned { serverIP := ip, netmask := net.IPv4 m0 m0 m0 m0,
                    ClientSubnet := g.ClientSubnet }
          .Handler6 .Handler4
          (some ("plugins/server: netmask is not valid, got: " ++ a0)) [] := by
  have hv : checkValidNetmask (net.IPv4 m0 m0 m0 m0) = some false := by
    rw [checkValidNetmask_replicated]; simp [hne]
  have hlen : ¬ (rest.length + 1 + 1 < 2) := by omega
  simp [setupServer, hc, hm, hv, hlen]

/-- The outcome of `setupServer` on two or more arguments once the CIDR has
been parsed and the first octet of its mask is 255: never the netmask error. -/
theorem setupServer_passes_octet (g : Globals) (a0 a1 : String) (rest : List String)
    (ip : net.IP) (network : net.IPNet)
    (hc : net.ParseCIDR a0 = some (ip, network))
    (hm : network.Mask[0]? = some 255)
    (g1 : Globals) (h6 : Handler6Value) (h4 : Handler4Value) (log : List LogLine) :
    setupServer false (a0 :: a1 :: rest) g
      ≠ .returned g1 h6 h4 (some ("plugins/server: netmask is not valid, got: " ++ a0)) log := by
  have hv : checkValidNetmask (net.IPv4 255 255 255 255) = some true := by decide
  have hlen : ¬ ((a0 :: a1 :: rest).length < 2) := by simp
  intro h
  unfold setupServer at h
  simp only [Bool.false_eq_true, if_false, if_neg hlen, List.getD_cons_zero, hc, hm, hv] at h
  split at h
  · simp only [SetupOutcome.returned.injEq, Option.some.injEq] at h
    exact netmask_msg_ne _ _ h.2.2.2.1.symm
  · split at h
    · simp at h
    · simp at h

/-- Claim C18.  For every byte `b`, `checkValidNetmask` of `b.b.b.b` is true
exactly when `b = 255`.  Hence, for a first argument parsed as a CIDR whose
mask starts with the octet `m0`: `setupServer` returns the invalid-netmask
error exactly when `m0` is not 255; `m0` is 255 exactly when the prefix length
is at least 8, so every prefix length from 0 to 7 is rejected; and after every
call that returns a nil error the stored netmask is `255.255.255.255`. -/
theorem netmask_check_first_octet (g : Globals) (a0 a1 : String) (rest : List String)
    (ip : net.IP) (network : net.IPNet) (m0 : Byte)
    (hc : net.ParseCIDR a0 = some (ip, network))
    (hm : network.Mask[0]? = some m0) :
    (∀ b : Byte, checkValidNetmask (net.IPv4 b b b b) = some (decide (b = 255)))
    ∧ (m0 ≠ 255 ↔
        setupServer false (a0 :: a1 :: rest) g
          = .returned { serverIP := ip, netmask := net.IPv4 m0 m0 m0 m0,
                        ClientSubnet := g.ClientSubnet }
              .Handler6 .Handler4
              (some ("plugins/server: netmask is not valid, got: " ++ a0)) [])
    ∧ (∀ n bits, network.Mask = net.CIDRMask n bits → (m0 = 255 ↔ 8 ≤ n))
    ∧ (∀ n bits, network.Mask = net.CIDRMask n bits → n < 8 →
        setupServer false (a0 :: a1 :: rest) g
          = .returned { serverIP := ip, netmask := net.IPv4 m0 m0 m0 m0,
                        ClientSubnet := g.ClientSubnet }
              .Handler6 .Handler4
              (some ("plugins/server: netmask is not valid, got: " ++ a0)) [])
    ∧ (∀ (args : List String) (prior g1 : Globals) (h6 : Handler6Value)
        (h4 : Handler4Value) (log : List LogLine),
        setupServer false args prior = .returned g1 h6 h4 none log →
        g1.netmask = net.IPv4 255 255 255 255) := by
  have hoct : ∀ n bits, network.Mask = net.CIDRMask n bits → (m0 = 255 ↔ 8 ≤ n) := by
    intro n bits hmask
    have hne : net.CIDRMask n bits ≠ [] := by
      rw [← hmask]
      intro e
      rw [e] at hm
      simp at hm
    exact CIDRMask_head_eq_255_iff n bits m0 hne (hmask ▸ hm)
  refine ⟨checkValidNetmask_replicated, ⟨?_, ?_⟩, hoct, ?_, ?_⟩
  · exact setupServer_rejects_octet g a0 a1 rest ip network m0 hc hm
  · intro h e
    subst e
    exact setupServer_passes_octet g a0 a1 rest ip network hc hm _ _ _ _ h
  · intro n bits hmask hn
    have hne : m0 ≠ 255 := fun e => by
      have := (hoct n bits hmask).mp e
      omega
    exact setupServer_rejects_octet g a0 a1 rest ip network m0 hc hm hne
  · intro args prior g1 h6 h4 log h
    obtain ⟨-, ip1, network1, m1, s0, s1, s2, s3, -, -, hv, -, -, hg, -, -, -⟩ :=
      setupServer_nil_error_inv prior g1 args h6 h4 log h
    rw [checkValidNetmask_replicated] at hv
    have hm1 : m1 = 255 := by simpa using hv
    rw [hg, hm1]

/-- Witness of claim C18: the first argument `10.0.0.1/7`, whose mask starts
with the octet 254, is rejected. -/
theorem netmask_check_first_octet_witness :
    net.ParseCIDR "10.0.0.1/7"
        = some (net.IPv4 10 0 0 1, { IP := [10, 0, 0, 0], Mask := [254, 0, 0, 0] })
    ∧ ([254, 0, 0, 0] : List Byte) = net.CIDRMask 7 32
    ∧ setupServer false ["10.0.0.1/7", "255.255.255.0"] sampleGlobals
      = .returned { serverIP := net.IPv4 10 0 0 1, netmask := net.IPv4 254 254 254 254,
                    ClientSubnet := [255, 255, 255, 0] }
          .Handler6 .Handler4
          (some "plugins/server: netmask is not valid, got: 10.0.0.1/7") [] :=
  ⟨by decide, by decide,
    (netmask_check_first_octet sampleGlobals "10.0.0.1/7" "255.255.255.0" []
      (net.IPv4 10 0 0 1) { IP := [10, 0, 0, 0], Mask := [254, 0, 0, 0] } 254
      (by decide) (by decide)).2.2.2.1 7 32 (by decide) (by decide)⟩

/-! ## Failed calls and the package variables -/

/-- Claim C12, refuted as stated.  From the configured state `10.0.0.1`,
`255.255.255.255`, `255.255.255.0`, the arguments `192.168.1.1/7` and
`255.255.0.0` make `setupServer` return a non-nil error, with `serverIP` and
`netmask` replaced and `ClientSubnet` as before. -/
theorem setupServer_partial_update :
    setupServer false ["192.168.1.1/7", "255.255.0.0"] sampleGlobals
      = .returned { serverIP := net.IPv4 192 168 1 1, netmask := net.IPv4 254 254 254 254,
                    ClientSubnet := net.IPv4Mask 255 255 255 0 }
          .Handler6 .Handler4
          (some "plugins/server: netmask is not valid, got: 192.168.1.1/7") []
    ∧ net.IPv4 192 168 1 1 ≠ sampleGlobals.serverIP
    ∧ net.IPv4 254 254 254 254 ≠ sampleGlobals.netmask
    ∧ net.IPv4Mask 255 255 255 0 = sampleGlobals.ClientSubnet := by
  decide

/-- Claim C12, amended.  For every prior state and every argument list, when
`setupServer` with `v6 = false` returns, one of three cases holds: the error is
nil and all three variables hold the newly derived values; or the error is
non-nil, raised before the CIDR was parsed (too few arguments, or an
unparsable first argument), and all three variables are as before; or the
error is non-nil, raised after the CIDR was parsed, and `serverIP` and
`netmask` hold the newly derived values while `ClientSubnet` is as before. -/
theorem setupServer_returned_cases (g g1 : Globals) (args : List String)
    (h6 : Handler6Value) (h4 : Handler4Value) (err : Option String) (log : List LogLine)
    (h : setupServer false args g = .returned g1 h6 h4 err log) :
    (err = none ∧ ∃ ip network m0,
        net.ParseCIDR (args.getD 0 "") = some (ip, network)
        ∧ network.Mask[0]? = some m0
        ∧ g1 = { serverIP := ip, netmask := net.IPv4 m0 m0 m0 m0,
                 ClientSubnet := net.To4 (net.ParseIP (args.getD 1 "")) })
    ∨ (err ≠ none ∧ g1 = g
        ∧ (args.length < 2 ∨ net.ParseCIDR (args.getD 0 "") = none))
    ∨ (err ≠ none ∧ ∃ ip network m0,
        net.ParseCIDR (args.getD 0 "") = some (ip, network)
        ∧ network.Mask[0]? = some m0
        ∧ g1 = { serverIP := ip, netmask := net.IPv4 m0 m0 m0 m0,
                 ClientSubnet := g.ClientSubnet }) := by
  cases err with
  | none =>
    left
    obtain ⟨-, ip, network, m0, s0, s1, s2, s3, hc, hm, -, -, h4e, hg, -, -, -⟩ :=
      setupServer_nil_error_inv g g1 args h6 h4 log h
    exact ⟨rfl, ip, network, m0, hc, hm, by rw [hg, h4e]; rfl⟩
  | some msg =>
    right
    unfold setupServer at h
    simp only [Bool.false_eq_true, if_false] at h
    split at h
    · rename_i hlen
      simp only [SetupOutcome.returned.injEq] at h
      exact Or.inl ⟨by simp, h.1.symm, Or.inl hlen⟩
    · split at h
      · rename_i hc
        simp only [SetupOutcome.returned.injEq] at h
        exact Or.inl ⟨by simp, h.1.symm, Or.inr hc⟩
      · rename_i ip network hc
        right
        refine ⟨by simp, ip, network, ?_⟩
        split at h
        · simp at h
        · rename_i m0 hm
          refine ⟨m0, hc, hm, ?_⟩
          split at h
          · simp at h
          · simp only [SetupOutcome.returned.injEq] at h
            exact h.1.symm
          · split at h
            · simp only [SetupOutcome.returned.injEq] at h
              exact h.1.symm
            · split at h
              · simp at h
              · simp at h

/-- Witness of the amended claim C12: the call of the refutation falls in the
third case. -/
theorem setupServer_returned_cases_witness :
    setupServer false ["192.168.1.1/7", "255.255.0.0"] sampleGlobals
      = .returned { serverIP := net.IPv4 192 168 1 1, netmask := net.IPv4 254 254 254 254,
                    ClientSubnet := net.IPv4Mask 255 255 255 0 }
          .Handler6 .Handler4
          (some "plugins/server: netmask is not valid, got: 192.168.1.1/7") []
    ∧ ((some "plugins/server: netmask is not valid, got: 192.168.1.1/7" = none ∧ ∃ ip network m0,
        net.ParseCIDR (["192.168.1.1/7", "255.255.0.0"].getD 0 "") = some (ip, network)
        ∧ network.Mask[0]? = some m0
        ∧ ({ serverIP := net.IPv4 192 168 1 1, netmask := net.IPv4 254 254 254 254,
             ClientSubnet := net.IPv4Mask 255 255 255 0 } : Globals)
          = { serverIP := ip, netmask := net.IPv4 m0 m0 m0 m0,
              ClientSubnet := net.To4 (net.ParseIP (["192.168.1.1/7", "255.255.0.0"].getD 1 "")) })
      ∨ (some "plugins/server: netmask is not valid, got: 192.168.1.1/7" ≠ none
        ∧ ({ serverIP := net.IPv4 192 168 1 1, netmask := net.IPv4 254 254 254 254,
             ClientSubnet := net.IPv4Mask 255 255 255 0 } : Globals) = sampleGlobals
        ∧ (["192.168.1.1/7", "255.255.0.0"].length < 2
          ∨ net.ParseCIDR (["192.168.1.1/7", "255.255.0.0"].getD 0 "") = none))
      ∨ (some "plugins/server: netmask is not valid, got: 192.168.1.1/7" ≠ none
        ∧ ∃ ip network m0,
          net.ParseCIDR (["192.168.1.1/7", "255.255.0.0"].getD 0 "") = some (ip, network)
          ∧ network.Mask[0]? = some m0
          ∧ ({ serverIP := net.IPv4 192 168 1 1, netmask := net.IPv4 254 254 254 254,
               ClientSubnet := net.IPv4Mask 255 255 255 0 } : Globals)
            = { serverIP := ip, netmask := net.IPv4 m0 m0 m0 m0,
                ClientSubnet := sampleGlobals.ClientSubnet })) :=
  ⟨by decide,
    setupServer_returned_cases sampleGlobals
      { serverIP := net.IPv4 192 168 1 1, netmask := net.IPv4 254 254 254 254,
        ClientSubnet := net.IPv4Mask 255 255 255 0 }
      ["192.168.1.1/7", "255.255.0.0"] .Handler6 .Handler4
      (some "plugins/server: netmask is not valid, got: 192.168.1.1/7") [] (by decide)⟩

/-! ## Values without an IPv4 form, and the text of the subnet error -/

/-- A value whose length is neither 4 nor 16 is refused by the first test of
`checkValidNetmask`. -/
theorem checkValidNetmask_bad_length (ip : net.IP) (h4 : ip.length ≠ 4)
    (h16 : ip.length ≠ 16) : checkValidNetmask ip = some false := by
  have e : net.To16 ip = [] := by
    simp [net.To16, net.IPv4len, net.IPv6len, h4, h16]
  simp [checkValidNetmask, e]

/-- Claim C17, refuted as stated.  The 16-byte address `2001:db8::1` is not
IPv4-mapped: it passes the `To16` test and the `IsUnspecified` test, its 4-byte
form is nil, and `checkValidNetmask` reaches the 32-bit read with that nil form
and panics; it does not return false. -/
theorem checkValidNetmask_ipv6_panics :
    net.To16 [0x20, 0x01, 0x0d, 0xb8, 0, 0, 0, 0, 0, 0, 0, 0, 0, 0, 0, 1] ≠ []
    ∧ net.IsUnspecified [0x20, 0x01, 0x0d, 0xb8, 0, 0, 0, 0, 0, 0, 0, 0, 0, 0, 0, 1] = false
    ∧ net.To4 [0x20, 0x01, 0x0d, 0xb8, 0, 0, 0, 0, 0, 0, 0, 0, 0, 0, 0, 1] = []
    ∧ binary.Uint32 [] = none
    ∧ checkValidNetmask [0x20, 0x01, 0x0d, 0xb8, 0, 0, 0, 0, 0, 0, 0, 0, 0, 0, 0, 1] = none
    ∧ checkValidNetmask [0x20, 0x01, 0x0d, 0xb8, 0, 0, 0, 0, 0, 0, 0, 0, 0, 0, 0, 1]
        ≠ some false := by
  decide

/-- A value that has a 4-byte form never makes `checkValidNetmask` panic. -/
theorem checkValidNetmask_of_To4 (ip : net.IP) (h : net.To4 ip ≠ []) :
    ∃ r, checkValidNetmask ip = some r := by
  have hl : (net.To4 ip).length = 4 := by
    rcases To4_length ip with hl | hl
    · exact hl
    · exact absurd hl h
  obtain ⟨a, b, c, d, e⟩ : ∃ a b c d, net.To4 ip = [a, b, c, d] := by
    match hq : net.To4 ip, hl with
    | [a, b, c, d], _ => exact ⟨a, b, c, d, rfl⟩
  unfold checkValidNetmask
  split
  · exact ⟨false, rfl⟩
  · split
    · exact ⟨false, rfl⟩
    · rw [e, Uint32_eq_sum]
      exact ⟨_, rfl⟩

/-- Claim C17, amended.  For every address value: when its length is neither 4
nor 16, `checkValidNetmask` returns false; when it has a 4-byte form, the
function returns a boolean, the 32-bit read being made on that 4-byte form.
The unspecified address `::` gets false.  Every value that `setupServer`, the
only caller, passes is `net.IPv4(m0, m0, m0, m0)`, whose 4-byte form is
`m0.m0.m0.m0`, so in the program the 32-bit read is never reached with a
missing 4-byte form. -/
theorem checkValidNetmask_returns (ip : net.IP) :
    (ip.length ≠ 4 → ip.length ≠ 16 → checkValidNetmask ip = some false)
    ∧ (net.To4 ip ≠ [] → ∃ r, checkValidNetmask ip = some r)
    ∧ checkValidNetmask net.IPv6unspecified = some false
    ∧ (∀ m0 : Byte, net.To4 (net.IPv4 m0 m0 m0 m0) = [m0, m0, m0, m0]
        ∧ ∃ r, checkValidNetmask (net.IPv4 m0 m0 m0 m0) = some r) := by
  refine ⟨checkValidNetmask_bad_length ip, checkValidNetmask_of_To4 ip, by decide, ?_⟩
  intro m0
  refine ⟨To4_IPv4 m0 m0 m0 m0, checkValidNetmask_of_To4 _ ?_⟩
  rw [To4_IPv4]
  exact List.cons_ne_nil _ _

/-- Witness of the amended claim C17: a 3-byte value gets false, and the
16-byte form of `255.255.255.0`, which has a 4-byte form, gets a boolean. -/
theorem checkValidNetmask_returns_witness :
    (([1, 2, 3] : net.IP).length ≠ 4 ∧ ([1, 2, 3] : net.IP).length ≠ 16
      ∧ checkValidNetmask [1, 2, 3] = some false)
    ∧ (net.To4 (net.IPv4 255 255 255 0) ≠ []
      ∧ ∃ r, checkValidNetmask (net.IPv4 255 255 255 0) = some r) :=
  ⟨⟨by decide, by decide,
      (checkValidNetmask_returns [1, 2, 3]).1 (by decide) (by decide)⟩,
    ⟨by decide, (checkValidNetmask_returns (net.IPv4 255 255 255 0)).2.1 (by decide)⟩⟩

/-- Claim C20, the failing input.  With the arguments `10.0.0.1/24` and
`not-an-ip`, the error text ends with the prior value of `ClientSubnet`: it is
`...got:<nil>` from the unset package variables and `...got:ffffff00` from a
state where `ClientSubnet` is `255.255.255.0`. -/
theorem setupServer_error_depends_on_state :
    setupServer false ["10.0.0.1/24", "not-an-ip"] Globals.initial
      = .returned { serverIP := net.IPv4 10 0 0 1, netmask := net.IPv4 255 255 255 255,
                    ClientSubnet := [] }
          .Handler6 .Handler4 (some "plugins/server: expected an IPv4 address, got:<nil>") []
    ∧ setupServer false ["10.0.0.1/24", "not-an-ip"] sampleGlobals
      = .returned { serverIP := net.IPv4 10 0 0 1, netmask := net.IPv4 255 255 255 255,
                    ClientSubnet := [255, 255, 255, 0] }
          .Handler6 .Handler4
          (some "plugins/server: expected an IPv4 address, got:ffffff00") []
    ∧ "plugins/server: expected an IPv4 address, got:<nil>"
      ≠ "plugins/server: expected an IPv4 address, got:ffffff00" := by
  decide

end CoreDHCP
